import Mathlib

/-!
Shallow embedding of `src/configuration.cpp` from the ESP32-CAM_Interval
repository: the configuration key/value setter (`Configuration::config_set`),
the primitive parsers `parse_int` / `parse_bool` (built on C `strtol` /
`strtoul` semantics), the save path (`Configuration::saveConfig`, whose
emitted key/value pairs are `Configuration.saveLines`), the JSON renderer
(`Configuration::configAsJSON`) and the load path (`Configuration::loadConfig`).

Machine integers are modelled as `Int`/`Nat` with the explicit clamping that
the 32-bit `strtol`/`strtoul` of the ESP32 toolchain perform at
`±2^31` / `2^32`.  C strings are modelled as Lean `String`s (the
configuration values are ASCII text).
-/

/-- Lower-casing of one ASCII character, as C `tolower` does on the ASCII
range compared by `strcasecmp`. -/
def lowerChar (c : Char) : Char :=
  if 65 ≤ c.toNat ∧ c.toNat ≤ 90 then Char.ofNat (c.toNat + 32) else c

/-- The character list of a string, lower-cased. -/
def lowerStr (s : String) : List Char := s.data.map lowerChar

/-- `strcasecmp(a, b) == 0`: case-insensitive string equality. -/
def ciEq (a b : String) : Bool := decide (lowerStr a = lowerStr b)

/-- C `isspace` in the default locale: space and the five control
characters 9–13. -/
def isSpaceC (c : Char) : Bool := c.toNat = 32 || (9 ≤ c.toNat && c.toNat ≤ 13)

/-- Numeric value of an ASCII decimal digit, if `c` is one. -/
def digitVal? (c : Char) : Option Nat :=
  if 48 ≤ c.toNat ∧ c.toNat ≤ 57 then some (c.toNat - 48) else none

/-- Consume leading decimal digits, accumulating their value base 10.
Returns the accumulated value and the unconsumed remainder. -/
def parseDigitsAcc : List Char → Nat → Nat × List Char
  | [], acc => (acc, [])
  | c :: cs, acc =>
    match digitVal? c with
    | some d => parseDigitsAcc cs (acc * 10 + d)
    | none => (acc, c :: cs)

/-- The leading whitespace-skip and sign handling shared by `strtol` and
`strtoul`: returns the negative-sign flag and the remaining characters. -/
def strtolSplit (s : String) : Bool × List Char :=
  let ws := s.data.dropWhile isSpaceC
  if ws.head? = some '-' then (true, ws.tail)
  else if ws.head? = some '+' then (false, ws.tail)
  else (false, ws)

/-- `strtol(s, &endp, 10)` with 32-bit `long`: the parsed value (clamped to
`[-2^31, 2^31-1]` on overflow) together with the pointer `strtol` stores in
`endp`, modelled as `some` of an index into the string (`0`, i.e. the start
of the string, when no digit was consumed).  `strtol` always stores a
non-null pointer when handed one, so the second component is never `none`;
the `Option` is kept because `parse_int` in the source tests
`endp == NULL`. -/
def strtolFull (s : String) : Int × Option Nat :=
  let sp := strtolSplit s
  let pd := parseDigitsAcc sp.2 0
  let v : Int := if sp.1 then -(pd.1 : Int) else (pd.1 : Int)
  (max (-(2 ^ 31)) (min (2 ^ 31 - 1) v),
    some (if sp.2.length - pd.2.length = 0 then 0 else s.data.length - pd.2.length))

/-- `strtoul(s, &endp, 10)` with 32-bit `unsigned long`: the magnitude is
clamped to `2^32-1` on overflow, and a leading minus sign negates in
unsigned (mod `2^32`) arithmetic.  The `endp` component is never `none`,
exactly as for `strtolFull`. -/
def strtoulFull (s : String) : Nat × Option Nat :=
  let sp := strtolSplit s
  let pd := parseDigitsAcc sp.2 0
  let m := min pd.1 (2 ^ 32 - 1)
  ((if sp.1 then (2 ^ 32 - m) % 2 ^ 32 else m),
    some (if sp.2.length - pd.2.length = 0 then 0 else s.data.length - pd.2.length))

/-- `parse_int` from configuration.cpp: calls `strtol` and fails only when
`endp == NULL` — a condition `strtol` never produces, so the failure branch
is dead code (the doc comment of the source function promises `false` on
error, but the code compares `endp` against `NULL` instead of against the
start of the input). -/
def parse_int (s : String) : Option Int :=
  if (strtolFull s).2 = none then none else some (strtolFull s).1

/-- `parse_bool` from configuration.cpp: case-insensitive `true`/`yes` map to
`true`, case-insensitive `false`/`no` map to `false`, and the exact strings
`1` / `0` (compared with `strcmp`) map to `true` / `false`; anything else is
a format error, leaving the out-parameter untouched (modelled by `none`). -/
def parse_bool (s : String) : Option Bool :=
  if ciEq s "true" || ciEq s "yes" || s == "1" then some true
  else if ciEq s "false" || ciEq s "no" || s == "0" then some false
  else none

/-- ASCII character of a decimal digit. -/
def digitChar (d : Nat) : Char := Char.ofNat (48 + d)

/-- Fuel-driven digit rendering: `utosAux (n + 1) n` emits the decimal
digits of `n` (the fuel makes the recursion structural; it is always
sufficient because `n / 10 < n`). -/
def utosAux : Nat → Nat → List Char
  | 0, _ => []
  | fuel + 1, n =>
    if n < 10 then [digitChar n]
    else utosAux fuel (n / 10) ++ [digitChar (n % 10)]

/-- Decimal digit string of a natural number — the rendering Arduino
`String(unsigned long)` / the non-negative case of `String(int)` produce. -/
def utosCore (n : Nat) : List Char := utosAux (n + 1) n

/-- Arduino `String(unsigned long)`. -/
def utos (n : Nat) : String := ⟨utosCore n⟩

/-- Arduino `String(int)`. -/
def itos (n : Int) : String :=
  if n < 0 then ⟨'-' :: utosCore n.natAbs⟩ else ⟨utosCore n.toNat⟩

/-- Arduino `String(bool)` renders `1` or `0`. -/
def btos (b : Bool) : String := if b then "1" else "0"

/-- `frame_size_strings` from configuration.cpp, indexed by the
`framesize_t` enumeration of the esp32-camera library. -/
def frame_size_strings : List String :=
  ["96x96", "160x120", "176x144", "240x176", "240x240", "320x240",
   "400x296", "480x320", "640x480", "800x600", "1024x768", "1280x720",
   "1280x1024", "1600x1200", "1920x1080", "720x1280", "864x1536",
   "2048x1536", "2560x1440", "2560x1600", "1080x1920", "2560x1920"]

/-- `wb_mode_strings` from configuration.cpp, indexed by the white-balance
mode code. -/
def wb_mode_strings : List String := ["auto", "sunny", "cloudy", "office", "home"]

/-- `special_effect_strings` from configuration.cpp, indexed by the
special-effect code. -/
def special_effect_strings : List String :=
  ["none", "negative", "grayscale", "red tint", "green tint", "blue tint", "sepia"]

/-- Numeric codes of the `framesize_t` enumeration of the esp32-camera
library for the presets `config_set` can store, in source-branch order:
QQVGA, QCIF, HQVGA, QVGA, CIF, VGA, SVGA, XGA, SXGA, UXGA, QXGA. -/
def frameCodes : List Nat := [1, 2, 3, 5, 6, 8, 9, 10, 12, 13, 17]

/-- Modelled from the spec: the capacity of the fixed-size `m_tzinfo` char
buffer declared in `configuration.h`, which is not among the provided
sources ("bounded-length text, length < fixed buffer capacity").  The exact
capacity does not matter to any claim; 64 bytes is used. -/
def tzinfo_size : Nat := 64

/-- The Settings Store: the fields of class `Configuration`, declared in
`configuration.h` (not among the provided sources) and mutated by
`config_set` in configuration.cpp.  Field types follow the use sites:
`m_capture_interval` is a 32-bit unsigned (assigned from `strtoul`),
`m_tzinfo` a char buffer, the enum-typed fields (`m_frame_size`,
`m_wb_mode`, `m_special_effect`) carry their numeric codes (table indices,
modelled from the spec for the white-balance and special-effect orders), and
the remaining numeric fields are C `int`s. -/
structure Configuration where
  m_capture_interval : Nat
  m_tzinfo : String
  m_orientation : Int
  m_enable_busy_led : Bool
  m_enable_flash : Bool
  m_training_shots : Int
  m_frame_size : Nat
  m_quality : Int
  m_contrast : Int
  m_brightness : Int
  m_saturation : Int
  m_colorbar : Bool
  m_hmirror : Bool
  m_vflip : Bool
  m_awb : Bool
  m_awb_gain : Bool
  m_wb_mode : Nat
  m_agc : Bool
  m_agc_gain : Int
  m_gainceiling : Int
  m_aec : Bool
  m_aec_value : Int
  m_aec2 : Bool
  m_ae_level : Int
  m_dcw : Bool
  m_bpc : Bool
  m_wpc : Bool
  m_raw_gma : Bool
  m_lenc : Bool
  m_special_effect : Nat
deriving DecidableEq

/-- `orientation_to_rotation` from configuration.cpp: EXIF orientation code
to rotation degrees; every code other than 6, 3, 8 (including the `case 1`
fall-through) renders as 0. -/
def orientation_to_rotation (orientation : Int) : Int :=
  if orientation = 6 then 90
  else if orientation = 3 then 180
  else if orientation = 8 then 270
  else 0

/-- The `interval` branch of `config_set`: `m_capture_interval` is assigned
from `strtoul` before the (dead) `endp == NULL` test, and values below 1000
are clamped up to 1000. -/
def intervalBranch (c : Configuration) (value : String) : Int × Configuration :=
  let r := strtoulFull value
  let c1 : Configuration := { c with m_capture_interval := r.1 }
  if r.2 = none then (-2, c1)
  else if c1.m_capture_interval < 1000 then (0, { c1 with m_capture_interval := 1000 })
  else (0, c1)

/-- The `timezone` branch of `config_set`: reject values longer than the
buffer capacity minus one, else `strcpy` into `m_tzinfo`. -/
def timezoneBranch (c : Configuration) (value : String) : Int × Configuration :=
  if value.length > tzinfo_size - 1 then (-2, c)
  else (0, { c with m_tzinfo := value })

/-- The `rotation` branch of `config_set`: degrees to EXIF orientation
code. -/
def rotationBranch (c : Configuration) (value : String) : Int × Configuration :=
  match parse_int value with
  | none => (-2, c)
  | some n =>
    if n = 0 then (0, { c with m_orientation := 1 })
    else if n = 90 ∨ n = -270 then (0, { c with m_orientation := 6 })
    else if n = 180 ∨ n = -180 then (0, { c with m_orientation := 3 })
    else if n = 270 ∨ n = -90 then (0, { c with m_orientation := 8 })
    else (-2, c)

/-- A boolean branch of `config_set`: `parse_bool` into the given field;
the out-parameter (hence the store) is untouched on failure. -/
def boolBranch (c : Configuration) (value : String)
    (upd : Configuration → Bool → Configuration) : Int × Configuration :=
  match parse_bool value with
  | some b => (0, upd c b)
  | none => (-2, c)

/-- A ranged-integer branch of `config_set`: `parse_int`, reject outside
`[lo, hi]`, else store through `upd`. -/
def intRangeBranch (c : Configuration) (value : String) (lo hi : Int)
    (upd : Configuration → Int → Configuration) : Int × Configuration :=
  match parse_int value with
  | none => (-2, c)
  | some n => if n < lo ∨ n > hi then (-2, c) else (0, upd c n)

/-- The `training_shots` branch of `config_set`: only negative values are
rejected. -/
def trainingShotsBranch (c : Configuration) (value : String) : Int × Configuration :=
  match parse_int value with
  | none => (-2, c)
  | some n => if n < 0 then (-2, c) else (0, { c with m_training_shots := n })

/-- The `framesize` branch of `config_set`: case-insensitive match against
the preset names and their `WIDTHxHEIGHT` aliases, in source order. -/
def framesizeBranch (c : Configuration) (value : String) : Int × Configuration :=
  if ciEq value "QQVGA" || ciEq value "160x120" then (0, { c with m_frame_size := 1 })
  else if ciEq value "QCIF" || ciEq value "176x144" then (0, { c with m_frame_size := 2 })
  else if ciEq value "HQVGA" || ciEq value "240x176" then (0, { c with m_frame_size := 3 })
  else if ciEq value "QVGA" || ciEq value "320x240" then (0, { c with m_frame_size := 5 })
  else if ciEq value "CIF" || ciEq value "400x296" then (0, { c with m_frame_size := 6 })
  else if ciEq value "VGA" || ciEq value "640x480" then (0, { c with m_frame_size := 8 })
  else if ciEq value "SVGA" || ciEq value "800x600" then (0, { c with m_frame_size := 9 })
  else if ciEq value "XGA" || ciEq value "1024x768" then (0, { c with m_frame_size := 10 })
  else if ciEq value "SXGA" || ciEq value "1280x1024" then (0, { c with m_frame_size := 12 })
  else if ciEq value "UXGA" || ciEq value "1600x1200" then (0, { c with m_frame_size := 13 })
  else if ciEq value "QXGA" || ciEq value "2048x1536" then (0, { c with m_frame_size := 17 })
  else (-2, c)

/-- The `wb_mode` branch of `config_set`. -/
def wbModeBranch (c : Configuration) (value : String) : Int × Configuration :=
  if ciEq value "auto" then (0, { c with m_wb_mode := 0 })
  else if ciEq value "sunny" then (0, { c with m_wb_mode := 1 })
  else if ciEq value "cloudy" then (0, { c with m_wb_mode := 2 })
  else if ciEq value "office" then (0, { c with m_wb_mode := 3 })
  else if ciEq value "home" then (0, { c with m_wb_mode := 4 })
  else (-2, c)

/-- The `special_effect` branch of `config_set`. -/
def specialEffectBranch (c : Configuration) (value : String) : Int × Configuration :=
  if ciEq value "none" then (0, { c with m_special_effect := 0 })
  else if ciEq value "negative" then (0, { c with m_special_effect := 1 })
  else if ciEq value "grayscale" then (0, { c with m_special_effect := 2 })
  else if ciEq value "red tint" then (0, { c with m_special_effect := 3 })
  else if ciEq value "green tint" then (0, { c with m_special_effect := 4 })
  else if ciEq value "blue tint" then (0, { c with m_special_effect := 5 })
  else if ciEq value "sepia" then (0, { c with m_special_effect := 6 })
  else (-2, c)

/-- `Configuration::config_set` from configuration.cpp: the sequential
case-insensitive key dispatch, in source order.  Returns the error code
(`0` success, `-2` failure) and the resulting store. -/
def Configuration.config_set (c : Configuration) (key value : String) :
    Int × Configuration :=
  if ciEq key "interval" then intervalBranch c value
  else if ciEq key "ssid" || ciEq key "password" || ciEq key "ntp_server" then (0, c)
  else if ciEq key "timezone" then timezoneBranch c value
  else if ciEq key "rotation" then rotationBranch c value
  else if ciEq key "enable_busy_led" then
    boolBranch c value fun c b => { c with m_enable_busy_led := b }
  else if ciEq key "enable_flash" then
    boolBranch c value fun c b => { c with m_enable_flash := b }
  else if ciEq key "training_shots" then trainingShotsBranch c value
  else if ciEq key "framesize" then framesizeBranch c value
  else if ciEq key "quality" then
    intRangeBranch c value 10 63 fun c n => { c with m_quality := n }
  else if ciEq key "contrast" then
    intRangeBranch c value (-2) 2 fun c n => { c with m_contrast := n }
  else if ciEq key "brightness" then
    intRangeBranch c value (-2) 2 fun c n => { c with m_brightness := n }
  else if ciEq key "saturation" then
    intRangeBranch c value (-2) 2 fun c n => { c with m_saturation := n }
  else if ciEq key "colorbar" then
    boolBranch c value fun c b => { c with m_colorbar := b }
  else if ciEq key "hmirror" then
    boolBranch c value fun c b => { c with m_hmirror := b }
  else if ciEq key "vflip" then
    boolBranch c value fun c b => { c with m_vflip := b }
  else if ciEq key "awb" then
    boolBranch c value fun c b => { c with m_awb := b }
  else if ciEq key "awb_gain" then
    boolBranch c value fun c b => { c with m_awb_gain := b }
  else if ciEq key "wb_mode" then wbModeBranch c value
  else if ciEq key "agc" then
    boolBranch c value fun c b => { c with m_agc := b }
  else if ciEq key "agc_gain" then
    intRangeBranch c value 1 32 fun c n => { c with m_agc_gain := n - 1 }
  else if ciEq key "gainceiling" then
    intRangeBranch c value 0 6 fun c n => { c with m_gainceiling := n }
  else if ciEq key "aec" then
    boolBranch c value fun c b => { c with m_aec := b }
  else if ciEq key "aec_value" then
    intRangeBranch c value 0 1200 fun c n => { c with m_aec_value := n }
  else if ciEq key "aec2" then
    boolBranch c value fun c b => { c with m_aec2 := b }
  else if ciEq key "ae_level" then
    intRangeBranch c value (-2) 2 fun c n => { c with m_ae_level := n }
  else if ciEq key "dcw" then
    boolBranch c value fun c b => { c with m_dcw := b }
  else if ciEq key "bpc" then
    boolBranch c value fun c b => { c with m_bpc := b }
  else if ciEq key "wpc" then
    boolBranch c value fun c b => { c with m_wpc := b }
  else if ciEq key "raw_gma" then
    boolBranch c value fun c b => { c with m_raw_gma := b }
  else if ciEq key "lenc" then
    boolBranch c value fun c b => { c with m_lenc := b }
  else if ciEq key "special_effect" then specialEffectBranch c value
  else (0, c)

/-- The (key, value) pairs `Configuration::saveConfig` emits, in emission
order, each rendered with the field's external textual representation. -/
def Configuration.saveLines (c : Configuration) : List (String × String) :=
  [("interval", utos c.m_capture_interval),
   ("enable_busy_led", btos c.m_enable_busy_led),
   ("enable_flash", btos c.m_enable_flash),
   ("training_shots", itos c.m_training_shots),
   ("timezone", c.m_tzinfo),
   ("rotation", itos (orientation_to_rotation c.m_orientation)),
   ("framesize", frame_size_strings.getD c.m_frame_size ""),
   ("quality", itos c.m_quality),
   ("contrast", itos c.m_contrast),
   ("brightness", itos c.m_brightness),
   ("saturation", itos c.m_saturation),
   ("colorbar", btos c.m_colorbar),
   ("hmirror", btos c.m_hmirror),
   ("vflip", btos c.m_vflip),
   ("awb", btos c.m_awb),
   ("awb_gain", btos c.m_awb_gain),
   ("wb_mode", wb_mode_strings.getD c.m_wb_mode ""),
   ("agc", btos c.m_agc),
   ("agc_gain", itos (c.m_agc_gain + 1)),
   ("gainceiling", itos c.m_gainceiling),
   ("aec", btos c.m_aec),
   ("aec_value", itos c.m_aec_value),
   ("aec2", btos c.m_aec2),
   ("ae_level", itos c.m_ae_level),
   ("dcw", btos c.m_dcw),
   ("bpc", btos c.m_bpc),
   ("wpc", btos c.m_wpc),
   ("raw_gma", btos c.m_raw_gma),
   ("lenc", btos c.m_lenc),
   ("special_effect", special_effect_strings.getD c.m_special_effect "")]

/-- `Configuration::saveConfig`: when the destination opens, two generated
comment lines followed by one `key = value` line per field; when it does
not, `false` and nothing written. -/
def Configuration.saveConfig (c : Configuration) (canOpen : Bool) :
    Bool × Option (List String) :=
  if canOpen then
    (true, some (["# ESP32-CAM interval - Configuration file",
                  "# Configuration Generated from Set-up mode"] ++
      c.saveLines.map fun kv => kv.1 ++ " = " ++ kv.2))
  else (false, none)

/-- Modelled from the spec: the external tokenizer `parse_kv_file` (its
source file is not among the provided sources) hands each (key, value) pair
to `config_set` in file order and stops with the first nonzero error code —
"validation errors abort the whole Load at the first occurrence". -/
def loadPairs : Configuration → List (String × String) → Int × Configuration
  | c, [] => (0, c)
  | c, (k, v) :: rest =>
    let r := c.config_set k v
    if r.1 ≠ 0 then r else loadPairs r.2 rest

/-- `Configuration::loadConfig`: the config file is modelled as `none` when
absent and as `some` of the tokenized (key, value) pairs when present.  A
missing file is not an error (returns `true`, store untouched); a present
file loads through `parse_kv_file`/`config_set` and returns `false` exactly
on a nonzero parse result.  The outcome is the boolean return value — there
is no exception control flow. -/
def Configuration.loadConfig (c : Configuration)
    (file : Option (List (String × String))) : Bool × Configuration :=
  match file with
  | some pairs =>
    let r := loadPairs c pairs
    if r.1 ≠ 0 then (false, r.2) else (true, r.2)
  | none => (true, c)

/-- Quote a string for emission inside the JSON text. -/
def jstr (s : String) : String := "\"" ++ s ++ "\""

/-- The (key, rendered value) pairs of `Configuration::configAsJSON`, in
emission order; string-valued fields carry their surrounding quotes. -/
def Configuration.configAsJSONPairs (c : Configuration) : List (String × String) :=
  [("interval", utos c.m_capture_interval),
   ("enable_busy_led", btos c.m_enable_busy_led),
   ("enable_flash", btos c.m_enable_flash),
   ("training_shots", itos c.m_training_shots),
   ("timezone", jstr c.m_tzinfo),
   ("rotation", itos (orientation_to_rotation c.m_orientation)),
   ("framesize", jstr (frame_size_strings.getD c.m_frame_size "")),
   ("quality", itos c.m_quality),
   ("contrast", itos c.m_contrast),
   ("brightness", itos c.m_brightness),
   ("saturation", itos c.m_saturation),
   ("colorbar", btos c.m_colorbar),
   ("hmirror", btos c.m_hmirror),
   ("vflip", btos c.m_vflip),
   ("awb", btos c.m_awb),
   ("awb_gain", btos c.m_awb_gain),
   ("wb_mode", jstr (wb_mode_strings.getD c.m_wb_mode "")),
   ("agc", btos c.m_agc),
   ("agc_gain", itos (c.m_agc_gain + 1)),
   ("gainceiling", itos c.m_gainceiling),
   ("aec", btos c.m_aec),
   ("aec_value", itos c.m_aec_value),
   ("aec2", btos c.m_aec2),
   ("ae_level", itos c.m_ae_level),
   ("dcw", btos c.m_dcw),
   ("bpc", btos c.m_bpc),
   ("wpc", btos c.m_wpc),
   ("raw_gma", btos c.m_raw_gma),
   ("lenc", btos c.m_lenc),
   ("special_effect", jstr (special_effect_strings.getD c.m_special_effect ""))]

/-- `Configuration::configAsJSON` from configuration.cpp: the flat JSON
object text, built by successive appends exactly as the source builds
`json`. -/
def Configuration.configAsJSON (c : Configuration) : String :=
  "\x7b"
    ++ ("\"interval\": " ++ utos c.m_capture_interval)
    ++ (",\"enable_busy_led\": " ++ btos c.m_enable_busy_led)
    ++ (",\"enable_flash\": " ++ btos c.m_enable_flash)
    ++ (",\"training_shots\": " ++ itos c.m_training_shots)
    ++ (",\"timezone\": " ++ jstr c.m_tzinfo)
    ++ (",\"rotation\": " ++ itos (orientation_to_rotation c.m_orientation))
    ++ (",\"framesize\": " ++ jstr (frame_size_strings.getD c.m_frame_size ""))
    ++ (",\"quality\": " ++ itos c.m_quality)
    ++ (",\"contrast\": " ++ itos c.m_contrast)
    ++ (",\"brightness\": " ++ itos c.m_brightness)
    ++ (",\"saturation\": " ++ itos c.m_saturation)
    ++ (",\"colorbar\": " ++ btos c.m_colorbar)
    ++ (",\"hmirror\": " ++ btos c.m_hmirror)
    ++ (",\"vflip\": " ++ btos c.m_vflip)
    ++ (",\"awb\": " ++ btos c.m_awb)
    ++ (",\"awb_gain\": " ++ btos c.m_awb_gain)
    ++ (",\"wb_mode\": " ++ jstr (wb_mode_strings.getD c.m_wb_mode ""))
    ++ (",\"agc\": " ++ btos c.m_agc)
    ++ (",\"agc_gain\": " ++ itos (c.m_agc_gain + 1))
    ++ (",\"gainceiling\": " ++ itos c.m_gainceiling)
    ++ (",\"aec\": " ++ btos c.m_aec)
    ++ (",\"aec_value\": " ++ itos c.m_aec_value)
    ++ (",\"aec2\": " ++ btos c.m_aec2)
    ++ (",\"ae_level\": " ++ itos c.m_ae_level)
    ++ (",\"dcw\": " ++ btos c.m_dcw)
    ++ (",\"bpc\": " ++ btos c.m_bpc)
    ++ (",\"wpc\": " ++ btos c.m_wpc)
    ++ (",\"raw_gma\": " ++ btos c.m_raw_gma)
    ++ (",\"lenc\": " ++ btos c.m_lenc)
    ++ (",\"special_effect\": " ++ jstr (special_effect_strings.getD c.m_special_effect ""))
    ++ "\x7d"

/-- The domain invariant of the Settings Store: every field within its
documented domain.  The upper bounds `2^32` on the capture interval and
`2^31 - 1` on the training-shot count are the ranges of the 32-bit machine
types the fields are stored in (`strtoul` / `strtol` can produce nothing
larger). -/
def Valid (c : Configuration) : Prop :=
  1000 ≤ c.m_capture_interval ∧ c.m_capture_interval < 2 ^ 32 ∧
  c.m_tzinfo.length ≤ tzinfo_size - 1 ∧
  c.m_orientation ∈ ([1, 6, 3, 8] : List Int) ∧
  0 ≤ c.m_training_shots ∧ c.m_training_shots ≤ 2 ^ 31 - 1 ∧
  c.m_frame_size ∈ frameCodes ∧
  10 ≤ c.m_quality ∧ c.m_quality ≤ 63 ∧
  -2 ≤ c.m_contrast ∧ c.m_contrast ≤ 2 ∧
  -2 ≤ c.m_brightness ∧ c.m_brightness ≤ 2 ∧
  -2 ≤ c.m_saturation ∧ c.m_saturation ≤ 2 ∧
  c.m_wb_mode < 5 ∧
  0 ≤ c.m_agc_gain ∧ c.m_agc_gain ≤ 31 ∧
  0 ≤ c.m_gainceiling ∧ c.m_gainceiling ≤ 6 ∧
  0 ≤ c.m_aec_value ∧ c.m_aec_value ≤ 1200 ∧
  -2 ≤ c.m_ae_level ∧ c.m_ae_level ≤ 2 ∧
  c.m_special_effect < 7

instance (c : Configuration) : Decidable (Valid c) := by
  unfold Valid; infer_instance

/-- A concrete domain-valid store, used by the witness theorems. -/
def cfgW : Configuration :=
  { m_capture_interval := 5000
    m_tzinfo := "CET-1CEST,M3.5.0,M10.5.0/3"
    m_orientation := 6
    m_enable_busy_led := true
    m_enable_flash := false
    m_training_shots := 3
    m_frame_size := 8
    m_quality := 12
    m_contrast := 1
    m_brightness := -1
    m_saturation := 2
    m_colorbar := false
    m_hmirror := true
    m_vflip := false
    m_awb := true
    m_awb_gain := true
    m_wb_mode := 2
    m_agc := true
    m_agc_gain := 5
    m_gainceiling := 3
    m_aec := true
    m_aec_value := 300
    m_aec2 := false
    m_ae_level := 0
    m_dcw := true
    m_bpc := false
    m_wpc := true
    m_raw_gma := true
    m_lenc := true
    m_special_effect := 0 }

/-- A second concrete store (the pre-load state of the round-trip
witness), differing from `cfgW` in every field. -/
def cfgW0 : Configuration :=
  { m_capture_interval := 1000
    m_tzinfo := ""
    m_orientation := 1
    m_enable_busy_led := false
    m_enable_flash := true
    m_training_shots := 0
    m_frame_size := 5
    m_quality := 63
    m_contrast := 0
    m_brightness := 0
    m_saturation := 0
    m_colorbar := true
    m_hmirror := false
    m_vflip := true
    m_awb := false
    m_awb_gain := false
    m_wb_mode := 0
    m_agc := false
    m_agc_gain := 0
    m_gainceiling := 0
    m_aec := false
    m_aec_value := 0
    m_aec2 := true
    m_ae_level := 1
    m_dcw := false
    m_bpc := true
    m_wpc := false
    m_raw_gma := false
    m_lenc := false
    m_special_effect := 4 }

/-- Repeated application of `config_set` over a list of (key, value) pairs,
keeping going regardless of error codes (each call is independent). -/
def applySet (c : Configuration) (kvs : List (String × String)) : Configuration :=
  kvs.foldl (fun c kv => (c.config_set kv.1 kv.2).2) c

/-- Every key spelling `config_set` tests, in source order: the 30 stored
fields plus the three deprecated keys. -/
def knownKeySpellings : List String :=
  ["interval", "ssid", "password", "ntp_server", "timezone", "rotation",
   "enable_busy_led", "enable_flash", "training_shots", "framesize",
   "quality", "contrast", "brightness", "saturation", "colorbar", "hmirror",
   "vflip", "awb", "awb_gain", "wb_mode", "agc", "agc_gain", "gainceiling",
   "aec", "aec_value", "aec2", "ae_level", "dcw", "bpc", "wpc", "raw_gma",
   "lenc", "special_effect"]

/-- Every value spelling the `framesize` branch accepts: eleven preset
names and their `WIDTHxHEIGHT` aliases, in source order. -/
def framesizeSpellings : List String :=
  ["QQVGA", "160x120", "QCIF", "176x144", "HQVGA", "240x176", "QVGA",
   "320x240", "CIF", "400x296", "VGA", "640x480", "SVGA", "800x600", "XGA",
   "1024x768", "SXGA", "1280x1024", "UXGA", "1600x1200", "QXGA", "2048x1536"]

/-- JSON text of the first emitted pair: no leading comma. -/
def renderPairFirst (p : String × String) : String := "\"" ++ p.1 ++ "\": " ++ p.2

/-- JSON text of every later pair: a leading comma. -/
def renderPairRest (p : String × String) : String := ",\"" ++ p.1 ++ "\": " ++ p.2

/-- Concatenation of the non-first pairs of a JSON object. -/
def joinRest : List (String × String) → String
  | [] => ""
  | p :: ps => renderPairRest p ++ joinRest ps

/-- Concatenation of all pairs of a JSON object. -/
def joinPairs : List (String × String) → String
  | [] => ""
  | p :: ps => renderPairFirst p ++ joinRest ps

/-- A flat JSON object built from (key, rendered value) pairs. -/
def mkJSONObj (ps : List (String × String)) : String :=
  "\x7b" ++ joinPairs ps ++ "\x7d"

/-- The 30 JSON keys in emission order. -/
def jsonKeys : List String :=
  ["interval", "enable_busy_led", "enable_flash", "training_shots",
   "timezone", "rotation", "framesize", "quality", "contrast", "brightness",
   "saturation", "colorbar", "hmirror", "vflip", "awb", "awb_gain",
   "wb_mode", "agc", "agc_gain", "gainceiling", "aec", "aec_value", "aec2",
   "ae_level", "dcw", "bpc", "wpc", "raw_gma", "lenc", "special_effect"]

/-- The JSON keys holding boolean fields. -/
def boolJsonKeys : List String :=
  ["enable_busy_led", "enable_flash", "colorbar", "hmirror", "vflip", "awb",
   "awb_gain", "agc", "aec", "aec2", "dcw", "bpc", "wpc", "raw_gma", "lenc"]

lemma strtolFull_snd (s : String) : (strtolFull s).2 ≠ none := by
  unfold strtolFull; simp

lemma strtoulFull_snd (s : String) : (strtoulFull s).2 ≠ none := by
  unfold strtoulFull; simp

lemma parse_int_eq (s : String) : parse_int s = some (strtolFull s).1 := by
  unfold parse_int
  rw [if_neg (strtolFull_snd s)]

lemma digitVal?_digitChar {d : Nat} (h : d < 10) : digitVal? (digitChar d) = some d := by
  interval_cases d <;> rfl

lemma utosAux_congr : ∀ f1 f2 n, n < f1 → n < f2 → utosAux f1 n = utosAux f2 n := by
  intro f1
  induction f1 with
  | zero => omega
  | succ f ih =>
    intro f2 n h1 h2
    cases f2 with
    | zero => omega
    | succ f2' =>
      simp only [utosAux]
      by_cases h : n < 10
      · simp [h]
      · simp only [h, if_false]
        rw [ih f2' (n / 10) (by omega) (by omega)]

lemma utosCore_unfold (n : Nat) :
    utosCore n = if n < 10 then [digitChar n]
      else utosCore (n / 10) ++ [digitChar (n % 10)] := by
  rw [show utosCore n = if n < 10 then [digitChar n]
    else utosAux n (n / 10) ++ [digitChar (n % 10)] from rfl]
  by_cases h : n < 10
  · simp [h]
  · simp only [h, if_false]
    unfold utosCore
    rw [utosAux_congr n (n / 10 + 1) (n / 10) (by omega) (by omega)]

lemma utosCore_head (n : Nat) : ∃ d cs, d < 10 ∧ utosCore n = digitChar d :: cs := by
  induction n using Nat.strong_induction_on with
  | _ n ih =>
    by_cases h : n < 10
    · exact ⟨n, [], h, by rw [utosCore_unfold]; simp [h]⟩
    · obtain ⟨d, cs, hd, he⟩ := ih (n / 10) (Nat.div_lt_self (by omega) (by omega))
      exact ⟨d, cs ++ [digitChar (n % 10)], hd, by rw [utosCore_unfold]; simp [h, he]⟩

lemma parseDigitsAcc_utosCore (n : Nat) :
    ∀ acc rest, parseDigitsAcc (utosCore n ++ rest) acc =
      parseDigitsAcc rest (acc * 10 ^ (utosCore n).length + n) := by
  induction n using Nat.strong_induction_on with
  | _ n ih =>
    intro acc rest
    by_cases h : n < 10
    · rw [utosCore_unfold]
      simp only [h, if_true, List.singleton_append, List.length_singleton, pow_one]
      simp [parseDigitsAcc, digitVal?_digitChar h]
    · rw [utosCore_unfold]
      simp only [h, if_false]
      rw [List.append_assoc, List.singleton_append,
        ih (n / 10) (Nat.div_lt_self (by omega) (by omega))]
      simp only [parseDigitsAcc, digitVal?_digitChar (Nat.mod_lt n (by omega) : n % 10 < 10)]
      congr 1
      rw [List.length_append, List.length_singleton, pow_succ]
      have hdm : 10 * (n / 10) + n % 10 = n := Nat.div_add_mod n 10
      ring_nf
      omega

lemma parseDigitsAcc_utosCore_nil (n : Nat) :
    parseDigitsAcc (utosCore n) 0 = (n, []) := by
  have := parseDigitsAcc_utosCore n 0 []
  simpa [parseDigitsAcc] using this

lemma digitChar_props {d : Nat} (h : d < 10) :
    isSpaceC (digitChar d) = false ∧ digitChar d ≠ '-' ∧ digitChar d ≠ '+' := by
  interval_cases d <;> exact ⟨rfl, by decide, by decide⟩

lemma strtolSplit_utosCore (n : Nat) :
    strtolSplit ⟨utosCore n⟩ = (false, utosCore n) := by
  obtain ⟨d, cs, hd, he⟩ := utosCore_head n
  obtain ⟨hs, hm, hp⟩ := digitChar_props hd
  unfold strtolSplit
  rw [show (⟨utosCore n⟩ : String).data = utosCore n from rfl, he]
  simp [List.dropWhile, hs, hm, hp]

lemma strtolSplit_negCore (l : List Char) :
    strtolSplit ⟨'-' :: l⟩ = (true, l) := by
  unfold strtolSplit
  rw [show (⟨'-' :: l⟩ : String).data = '-' :: l from rfl]
  rw [show List.dropWhile isSpaceC ('-' :: l) = '-' :: l from rfl]
  simp

lemma strtolFull_utos_fst (n : Nat) :
    (strtolFull ⟨utosCore n⟩).1 = max (-(2 ^ 31)) (min (2 ^ 31 - 1) (n : Int)) := by
  unfold strtolFull
  rw [strtolSplit_utosCore n]
  simp only [parseDigitsAcc_utosCore_nil n]
  simp

lemma strtolFull_negCore_fst (m : Nat) :
    (strtolFull ⟨'-' :: utosCore m⟩).1 =
      max (-(2 ^ 31)) (min (2 ^ 31 - 1) (-(m : Int))) := by
  unfold strtolFull
  rw [strtolSplit_negCore]
  simp only [parseDigitsAcc_utosCore_nil m]
  simp

lemma parse_int_itos {n : Int} (h1 : -(2 ^ 31) ≤ n) (h2 : n ≤ 2 ^ 31 - 1) :
    parse_int (itos n) = some n := by
  rw [parse_int_eq]
  refine congrArg some ?_
  unfold itos
  by_cases hn : n < 0
  · rw [if_pos hn, strtolFull_negCore_fst n.natAbs]
    omega
  · rw [if_neg hn, strtolFull_utos_fst n.toNat]
    omega

lemma strtoulFull_utos_fst {n : Nat} (h : n < 2 ^ 32) :
    (strtoulFull (utos n)).1 = n := by
  unfold utos strtoulFull
  rw [strtolSplit_utosCore n]
  simp only [parseDigitsAcc_utosCore_nil n]
  simp
  omega

lemma cs_interval (c : Configuration) {n : Nat} (h32 : n < 2 ^ 32) (hmin : 1000 ≤ n) :
    c.config_set "interval" (utos n) = (0, { c with m_capture_interval := n }) := by
  show intervalBranch c (utos n) = _
  unfold intervalBranch
  rw [if_neg (strtoulFull_snd (utos n))]
  simp only [strtoulFull_utos_fst h32]
  rw [if_neg (by omega : ¬ n < 1000)]

lemma cs_timezone (c : Configuration) {s : String} (h : s.length ≤ tzinfo_size - 1) :
    c.config_set "timezone" s = (0, { c with m_tzinfo := s }) := by
  show timezoneBranch c s = _
  unfold timezoneBranch
  rw [if_neg (by omega)]

lemma cs_rotation_code (c : Configuration) {o : Int} (h : o ∈ ([1, 6, 3, 8] : List Int)) :
    c.config_set "rotation" (itos (orientation_to_rotation o)) = (0, { c with m_orientation := o }) := by
  fin_cases h <;> rfl

lemma intRangeBranch_itos (c : Configuration) {lo hi n : Int}
    (upd : Configuration → Int → Configuration)
    (h1 : lo ≤ n) (h2 : n ≤ hi) (hlo : -(2 ^ 31) ≤ n) (hhi : n ≤ 2 ^ 31 - 1) :
    intRangeBranch c (itos n) lo hi upd = (0, upd c n) := by
  unfold intRangeBranch
  rw [parse_int_itos hlo hhi]
  show (if n < lo ∨ n > hi then ((-2 : Int), c) else (0, upd c n)) = (0, upd c n)
  rw [if_neg (by omega)]

lemma cs_quality (c : Configuration) {n : Int} (h1 : 10 ≤ n) (h2 : n ≤ 63) :
    c.config_set "quality" (itos n) = (0, { c with m_quality := n }) := by
  rw [show c.config_set "quality" (itos n) =
    intRangeBranch c (itos n) 10 63 (fun c n => { c with m_quality := n }) from rfl]
  exact intRangeBranch_itos c _ h1 h2 (by omega) (by omega)

lemma cs_contrast (c : Configuration) {n : Int} (h1 : -2 ≤ n) (h2 : n ≤ 2) :
    c.config_set "contrast" (itos n) = (0, { c with m_contrast := n }) := by
  rw [show c.config_set "contrast" (itos n) =
    intRangeBranch c (itos n) (-2) 2 (fun c n => { c with m_contrast := n }) from rfl]
  exact intRangeBranch_itos c _ h1 h2 (by omega) (by omega)

lemma cs_brightness (c : Configuration) {n : Int} (h1 : -2 ≤ n) (h2 : n ≤ 2) :
    c.config_set "brightness" (itos n) = (0, { c with m_brightness := n }) := by
  rw [show c.config_set "brightness" (itos n) =
    intRangeBranch c (itos n) (-2) 2 (fun c n => { c with m_brightness := n }) from rfl]
  exact intRangeBranch_itos c _ h1 h2 (by omega) (by omega)

lemma cs_saturation (c : Configuration) {n : Int} (h1 : -2 ≤ n) (h2 : n ≤ 2) :
    c.config_set "saturation" (itos n) = (0, { c with m_saturation := n }) := by
  rw [show c.config_set "saturation" (itos n) =
    intRangeBranch c (itos n) (-2) 2 (fun c n => { c with m_saturation := n }) from rfl]
  exact intRangeBranch_itos c _ h1 h2 (by omega) (by omega)

lemma cs_ae_level (c : Configuration) {n : Int} (h1 : -2 ≤ n) (h2 : n ≤ 2) :
    c.config_set "ae_level" (itos n) = (0, { c with m_ae_level := n }) := by
  rw [show c.config_set "ae_level" (itos n) =
    intRangeBranch c (itos n) (-2) 2 (fun c n => { c with m_ae_level := n }) from rfl]
  exact intRangeBranch_itos c _ h1 h2 (by omega) (by omega)

lemma cs_gainceiling (c : Configuration) {n : Int} (h1 : 0 ≤ n) (h2 : n ≤ 6) :
    c.config_set "gainceiling" (itos n) = (0, { c with m_gainceiling := n }) := by
  rw [show c.config_set "gainceiling" (itos n) =
    intRangeBranch c (itos n) 0 6 (fun c n => { c with m_gainceiling := n }) from rfl]
  exact intRangeBranch_itos c _ h1 h2 (by omega) (by omega)

lemma cs_aec_value (c : Configuration) {n : Int} (h1 : 0 ≤ n) (h2 : n ≤ 1200) :
    c.config_set "aec_value" (itos n) = (0, { c with m_aec_value := n }) := by
  rw [show c.config_set "aec_value" (itos n) =
    intRangeBranch c (itos n) 0 1200 (fun c n => { c with m_aec_value := n }) from rfl]
  exact intRangeBranch_itos c _ h1 h2 (by omega) (by omega)

lemma cs_agc_gain (c : Configuration) {n : Int} (h1 : 0 ≤ n) (h2 : n ≤ 31) :
    c.config_set "agc_gain" (itos (n + 1)) = (0, { c with m_agc_gain := n }) := by
  have h := intRangeBranch_itos c (fun c n => { c with m_agc_gain := n - 1 })
    (show (1 : Int) ≤ n + 1 by omega) (show n + 1 ≤ 32 by omega)
    (show -(2 ^ 31) ≤ n + 1 by omega) (show n + 1 ≤ 2 ^ 31 - 1 by omega)
  rw [show c.config_set "agc_gain" (itos (n + 1)) =
    intRangeBranch c (itos (n + 1)) 1 32 (fun c n => { c with m_agc_gain := n - 1 }) from rfl, h]
  simp only []
  rw [show n + 1 - 1 = n by omega]

lemma cs_training_shots (c : Configuration) {n : Int} (h1 : 0 ≤ n) (h2 : n ≤ 2 ^ 31 - 1) :
    c.config_set "training_shots" (itos n) = (0, { c with m_training_shots := n }) := by
  show trainingShotsBranch c (itos n) = _
  unfold trainingShotsBranch
  rw [parse_int_itos (by omega) h2]
  show (if n < 0 then ((-2 : Int), c) else (0, { c with m_training_shots := n })) = _
  rw [if_neg (by omega)]

lemma cs_bool (c : Configuration) (key : String) (b : Bool)
    (upd : Configuration → Bool → Configuration)
    (hk : ∀ c v, c.config_set key v = boolBranch c v upd) :
    c.config_set key (btos b) = (0, upd c b) := by
  rw [hk]
  cases b <;> rfl

lemma cs_framesize_code (c : Configuration) {fs : Nat} (h : fs ∈ frameCodes) :
    c.config_set "framesize" (frame_size_strings.getD fs "") = (0, { c with m_frame_size := fs }) := by
  fin_cases h <;> rfl

lemma cs_wb_mode_code (c : Configuration) {w : Nat} (h : w < 5) :
    c.config_set "wb_mode" (wb_mode_strings.getD w "") = (0, { c with m_wb_mode := w }) := by
  interval_cases w <;> rfl

lemma cs_special_effect_code (c : Configuration) {se : Nat} (h : se < 7) :
    c.config_set "special_effect" (special_effect_strings.getD se "") = (0, { c with m_special_effect := se }) := by
  interval_cases se <;> rfl

lemma loadPairs_cons (c : Configuration) (k v : String)
    (rest : List (String × String)) :
    loadPairs c ((k, v) :: rest) =
      if (c.config_set k v).1 ≠ 0 then c.config_set k v
      else loadPairs (c.config_set k v).2 rest := rfl

lemma loadPairs_cons_ok {c c' : Configuration} {k v : String}
    {rest : List (String × String)} (h : c.config_set k v = (0, c')) :
    loadPairs c ((k, v) :: rest) = loadPairs c' rest := by
  rw [loadPairs_cons, h]
  simp

/-- Claim C3: Save/Load round-trip — for every domain-valid Settings Store
`c`, feeding every (key, value) pair emitted by `saveConfig` back through
`config_set` into any second store yields exactly `c` with no error
(reachable stores have `interval ≥ 1000`, so the sub-1000 clamp never
fires and the round-trip is exact). -/
theorem claim_C3_save_load_roundtrip (c c0 : Configuration) (h : Valid c) :
    loadPairs c0 c.saveLines = (0, c) := by
  obtain ⟨hI1, hI2, hTz, hO, hTs1, hTs2, hFs, hQ1, hQ2, hCt1, hCt2, hBr1, hBr2,
    hSa1, hSa2, hWb, hG1, hG2, hGc1, hGc2, hA1, hA2, hAe1, hAe2, hSe⟩ := h
  rw [Configuration.saveLines]
  rw [loadPairs_cons_ok (cs_interval _ hI2 hI1)]
  rw [loadPairs_cons_ok (cs_bool _ "enable_busy_led" c.m_enable_busy_led
    (fun c b => { c with m_enable_busy_led := b }) (fun _ _ => rfl))]
  rw [loadPairs_cons_ok (cs_bool _ "enable_flash" c.m_enable_flash
    (fun c b => { c with m_enable_flash := b }) (fun _ _ => rfl))]
  rw [loadPairs_cons_ok (cs_training_shots _ hTs1 hTs2)]
  rw [loadPairs_cons_ok (cs_timezone _ hTz)]
  rw [loadPairs_cons_ok (cs_rotation_code _ hO)]
  rw [loadPairs_cons_ok (cs_framesize_code _ hFs)]
  rw [loadPairs_cons_ok (cs_quality _ hQ1 hQ2)]
  rw [loadPairs_cons_ok (cs_contrast _ hCt1 hCt2)]
  rw [loadPairs_cons_ok (cs_brightness _ hBr1 hBr2)]
  rw [loadPairs_cons_ok (cs_saturation _ hSa1 hSa2)]
  rw [loadPairs_cons_ok (cs_bool _ "colorbar" c.m_colorbar
    (fun c b => { c with m_colorbar := b }) (fun _ _ => rfl))]
  rw [loadPairs_cons_ok (cs_bool _ "hmirror" c.m_hmirror
    (fun c b => { c with m_hmirror := b }) (fun _ _ => rfl))]
  rw [loadPairs_cons_ok (cs_bool _ "vflip" c.m_vflip
    (fun c b => { c with m_vflip := b }) (fun _ _ => rfl))]
  rw [loadPairs_cons_ok (cs_bool _ "awb" c.m_awb
    (fun c b => { c with m_awb := b }) (fun _ _ => rfl))]
  rw [loadPairs_cons_ok (cs_bool _ "awb_gain" c.m_awb_gain
    (fun c b => { c with m_awb_gain := b }) (fun _ _ => rfl))]
  rw [loadPairs_cons_ok (cs_wb_mode_code _ hWb)]
  rw [loadPairs_cons_ok (cs_bool _ "agc" c.m_agc
    (fun c b => { c with m_agc := b }) (fun _ _ => rfl))]
  rw [loadPairs_cons_ok (cs_agc_gain _ hG1 hG2)]
  rw [loadPairs_cons_ok (cs_gainceiling _ hGc1 hGc2)]
  rw [loadPairs_cons_ok (cs_bool _ "aec" c.m_aec
    (fun c b => { c with m_aec := b }) (fun _ _ => rfl))]
  rw [loadPairs_cons_ok (cs_aec_value _ hA1 hA2)]
  rw [loadPairs_cons_ok (cs_bool _ "aec2" c.m_aec2
    (fun c b => { c with m_aec2 := b }) (fun _ _ => rfl))]
  rw [loadPairs_cons_ok (cs_ae_level _ hAe1 hAe2)]
  rw [loadPairs_cons_ok (cs_bool _ "dcw" c.m_dcw
    (fun c b => { c with m_dcw := b }) (fun _ _ => rfl))]
  rw [loadPairs_cons_ok (cs_bool _ "bpc" c.m_bpc
    (fun c b => { c with m_bpc := b }) (fun _ _ => rfl))]
  rw [loadPairs_cons_ok (cs_bool _ "wpc" c.m_wpc
    (fun c b => { c with m_wpc := b }) (fun _ _ => rfl))]
  rw [loadPairs_cons_ok (cs_bool _ "raw_gma" c.m_raw_gma
    (fun c b => { c with m_raw_gma := b }) (fun _ _ => rfl))]
  rw [loadPairs_cons_ok (cs_bool _ "lenc" c.m_lenc
    (fun c b => { c with m_lenc := b }) (fun _ _ => rfl))]
  rw [loadPairs_cons_ok (cs_special_effect_code _ hSe)]
  rfl
lemma valid_upd_quality {c : Configuration} {n : Int} (h : Valid c) (h1 : 10 ≤ n) (h2 : n ≤ 63) :
    Valid { c with m_quality := n } := by
  obtain ⟨hI1, hI2, hTz, hO, hTs1, hTs2, hFs, hQ1, hQ2, hCt1, hCt2, hBr1, hBr2, hSa1, hSa2, hWb, hG1, hG2, hGc1, hGc2, hA1, hA2, hAe1, hAe2, hSe⟩ := h
  exact ⟨hI1, hI2, hTz, hO, hTs1, hTs2, hFs, h1, h2, hCt1, hCt2, hBr1, hBr2, hSa1, hSa2, hWb, hG1, hG2, hGc1, hGc2, hA1, hA2, hAe1, hAe2, hSe⟩

lemma valid_upd_contrast {c : Configuration} {n : Int} (h : Valid c) (h1 : -2 ≤ n) (h2 : n ≤ 2) :
    Valid { c with m_contrast := n } := by
  obtain ⟨hI1, hI2, hTz, hO, hTs1, hTs2, hFs, hQ1, hQ2, hCt1, hCt2, hBr1, hBr2, hSa1, hSa2, hWb, hG1, hG2, hGc1, hGc2, hA1, hA2, hAe1, hAe2, hSe⟩ := h
  exact ⟨hI1, hI2, hTz, hO, hTs1, hTs2, hFs, hQ1, hQ2, h1, h2, hBr1, hBr2, hSa1, hSa2, hWb, hG1, hG2, hGc1, hGc2, hA1, hA2, hAe1, hAe2, hSe⟩

lemma valid_upd_brightness {c : Configuration} {n : Int} (h : Valid c) (h1 : -2 ≤ n) (h2 : n ≤ 2) :
    Valid { c with m_brightness := n } := by
  obtain ⟨hI1, hI2, hTz, hO, hTs1, hTs2, hFs, hQ1, hQ2, hCt1, hCt2, hBr1, hBr2, hSa1, hSa2, hWb, hG1, hG2, hGc1, hGc2, hA1, hA2, hAe1, hAe2, hSe⟩ := h
  exact ⟨hI1, hI2, hTz, hO, hTs1, hTs2, hFs, hQ1, hQ2, hCt1, hCt2, h1, h2, hSa1, hSa2, hWb, hG1, hG2, hGc1, hGc2, hA1, hA2, hAe1, hAe2, hSe⟩

lemma valid_upd_saturation {c : Configuration} {n : Int} (h : Valid c) (h1 : -2 ≤ n) (h2 : n ≤ 2) :
    Valid { c with m_saturation := n } := by
  obtain ⟨hI1, hI2, hTz, hO, hTs1, hTs2, hFs, hQ1, hQ2, hCt1, hCt2, hBr1, hBr2, hSa1, hSa2, hWb, hG1, hG2, hGc1, hGc2, hA1, hA2, hAe1, hAe2, hSe⟩ := h
  exact ⟨hI1, hI2, hTz, hO, hTs1, hTs2, hFs, hQ1, hQ2, hCt1, hCt2, hBr1, hBr2, h1, h2, hWb, hG1, hG2, hGc1, hGc2, hA1, hA2, hAe1, hAe2, hSe⟩

lemma valid_upd_ae_level {c : Configuration} {n : Int} (h : Valid c) (h1 : -2 ≤ n) (h2 : n ≤ 2) :
    Valid { c with m_ae_level := n } := by
  obtain ⟨hI1, hI2, hTz, hO, hTs1, hTs2, hFs, hQ1, hQ2, hCt1, hCt2, hBr1, hBr2, hSa1, hSa2, hWb, hG1, hG2, hGc1, hGc2, hA1, hA2, hAe1, hAe2, hSe⟩ := h
  exact ⟨hI1, hI2, hTz, hO, hTs1, hTs2, hFs, hQ1, hQ2, hCt1, hCt2, hBr1, hBr2, hSa1, hSa2, hWb, hG1, hG2, hGc1, hGc2, hA1, hA2, h1, h2, hSe⟩

lemma valid_upd_agc_gain {c : Configuration} {n : Int} (h : Valid c) (h1 : 0 ≤ n) (h2 : n ≤ 31) :
    Valid { c with m_agc_gain := n } := by
  obtain ⟨hI1, hI2, hTz, hO, hTs1, hTs2, hFs, hQ1, hQ2, hCt1, hCt2, hBr1, hBr2, hSa1, hSa2, hWb, hG1, hG2, hGc1, hGc2, hA1, hA2, hAe1, hAe2, hSe⟩ := h
  exact ⟨hI1, hI2, hTz, hO, hTs1, hTs2, hFs, hQ1, hQ2, hCt1, hCt2, hBr1, hBr2, hSa1, hSa2, hWb, h1, h2, hGc1, hGc2, hA1, hA2, hAe1, hAe2, hSe⟩

lemma valid_upd_gainceiling {c : Configuration} {n : Int} (h : Valid c) (h1 : 0 ≤ n) (h2 : n ≤ 6) :
    Valid { c with m_gainceiling := n } := by
  obtain ⟨hI1, hI2, hTz, hO, hTs1, hTs2, hFs, hQ1, hQ2, hCt1, hCt2, hBr1, hBr2, hSa1, hSa2, hWb, hG1, hG2, hGc1, hGc2, hA1, hA2, hAe1, hAe2, hSe⟩ := h
  exact ⟨hI1, hI2, hTz, hO, hTs1, hTs2, hFs, hQ1, hQ2, hCt1, hCt2, hBr1, hBr2, hSa1, hSa2, hWb, hG1, hG2, h1, h2, hA1, hA2, hAe1, hAe2, hSe⟩

lemma valid_upd_aec_value {c : Configuration} {n : Int} (h : Valid c) (h1 : 0 ≤ n) (h2 : n ≤ 1200) :
    Valid { c with m_aec_value := n } := by
  obtain ⟨hI1, hI2, hTz, hO, hTs1, hTs2, hFs, hQ1, hQ2, hCt1, hCt2, hBr1, hBr2, hSa1, hSa2, hWb, hG1, hG2, hGc1, hGc2, hA1, hA2, hAe1, hAe2, hSe⟩ := h
  exact ⟨hI1, hI2, hTz, hO, hTs1, hTs2, hFs, hQ1, hQ2, hCt1, hCt2, hBr1, hBr2, hSa1, hSa2, hWb, hG1, hG2, hGc1, hGc2, h1, h2, hAe1, hAe2, hSe⟩

lemma valid_upd_training_shots {c : Configuration} {n : Int} (h : Valid c) (h1 : 0 ≤ n) (h2 : n ≤ 2 ^ 31 - 1) :
    Valid { c with m_training_shots := n } := by
  obtain ⟨hI1, hI2, hTz, hO, hTs1, hTs2, hFs, hQ1, hQ2, hCt1, hCt2, hBr1, hBr2, hSa1, hSa2, hWb, hG1, hG2, hGc1, hGc2, hA1, hA2, hAe1, hAe2, hSe⟩ := h
  exact ⟨hI1, hI2, hTz, hO, h1, h2, hFs, hQ1, hQ2, hCt1, hCt2, hBr1, hBr2, hSa1, hSa2, hWb, hG1, hG2, hGc1, hGc2, hA1, hA2, hAe1, hAe2, hSe⟩

lemma valid_upd_framesize {c : Configuration} {fs : Nat} (h : Valid c) (hfs : fs ∈ frameCodes) :
    Valid { c with m_frame_size := fs } := by
  obtain ⟨hI1, hI2, hTz, hO, hTs1, hTs2, hFs, hQ1, hQ2, hCt1, hCt2, hBr1, hBr2, hSa1, hSa2, hWb, hG1, hG2, hGc1, hGc2, hA1, hA2, hAe1, hAe2, hSe⟩ := h
  exact ⟨hI1, hI2, hTz, hO, hTs1, hTs2, hfs, hQ1, hQ2, hCt1, hCt2, hBr1, hBr2, hSa1, hSa2, hWb, hG1, hG2, hGc1, hGc2, hA1, hA2, hAe1, hAe2, hSe⟩

lemma valid_upd_wb_mode {c : Configuration} {w : Nat} (h : Valid c) (hw : w < 5) :
    Valid { c with m_wb_mode := w } := by
  obtain ⟨hI1, hI2, hTz, hO, hTs1, hTs2, hFs, hQ1, hQ2, hCt1, hCt2, hBr1, hBr2, hSa1, hSa2, hWb, hG1, hG2, hGc1, hGc2, hA1, hA2, hAe1, hAe2, hSe⟩ := h
  exact ⟨hI1, hI2, hTz, hO, hTs1, hTs2, hFs, hQ1, hQ2, hCt1, hCt2, hBr1, hBr2, hSa1, hSa2, hw, hG1, hG2, hGc1, hGc2, hA1, hA2, hAe1, hAe2, hSe⟩

lemma valid_upd_special_effect {c : Configuration} {se : Nat} (h : Valid c) (hse : se < 7) :
    Valid { c with m_special_effect := se } := by
  obtain ⟨hI1, hI2, hTz, hO, hTs1, hTs2, hFs, hQ1, hQ2, hCt1, hCt2, hBr1, hBr2, hSa1, hSa2, hWb, hG1, hG2, hGc1, hGc2, hA1, hA2, hAe1, hAe2, hSe⟩ := h
  exact ⟨hI1, hI2, hTz, hO, hTs1, hTs2, hFs, hQ1, hQ2, hCt1, hCt2, hBr1, hBr2, hSa1, hSa2, hWb, hG1, hG2, hGc1, hGc2, hA1, hA2, hAe1, hAe2, hse⟩

lemma valid_upd_orientation {c : Configuration} {o : Int} (h : Valid c) (ho : o ∈ ([1, 6, 3, 8] : List Int)) :
    Valid { c with m_orientation := o } := by
  obtain ⟨hI1, hI2, hTz, hO, hTs1, hTs2, hFs, hQ1, hQ2, hCt1, hCt2, hBr1, hBr2, hSa1, hSa2, hWb, hG1, hG2, hGc1, hGc2, hA1, hA2, hAe1, hAe2, hSe⟩ := h
  exact ⟨hI1, hI2, hTz, ho, hTs1, hTs2, hFs, hQ1, hQ2, hCt1, hCt2, hBr1, hBr2, hSa1, hSa2, hWb, hG1, hG2, hGc1, hGc2, hA1, hA2, hAe1, hAe2, hSe⟩

lemma valid_upd_tzinfo {c : Configuration} {s : String} (h : Valid c) (hs : s.length ≤ tzinfo_size - 1) :
    Valid { c with m_tzinfo := s } := by
  obtain ⟨hI1, hI2, hTz, hO, hTs1, hTs2, hFs, hQ1, hQ2, hCt1, hCt2, hBr1, hBr2, hSa1, hSa2, hWb, hG1, hG2, hGc1, hGc2, hA1, hA2, hAe1, hAe2, hSe⟩ := h
  exact ⟨hI1, hI2, hs, hO, hTs1, hTs2, hFs, hQ1, hQ2, hCt1, hCt2, hBr1, hBr2, hSa1, hSa2, hWb, hG1, hG2, hGc1, hGc2, hA1, hA2, hAe1, hAe2, hSe⟩

lemma valid_upd_interval {c : Configuration} {n : Nat} (h : Valid c) (h1 : 1000 ≤ n) (h2 : n < 2 ^ 32) :
    Valid { c with m_capture_interval := n } := by
  obtain ⟨hI1, hI2, hTz, hO, hTs1, hTs2, hFs, hQ1, hQ2, hCt1, hCt2, hBr1, hBr2, hSa1, hSa2, hWb, hG1, hG2, hGc1, hGc2, hA1, hA2, hAe1, hAe2, hSe⟩ := h
  exact ⟨h1, h2, hTz, hO, hTs1, hTs2, hFs, hQ1, hQ2, hCt1, hCt2, hBr1, hBr2, hSa1, hSa2, hWb, hG1, hG2, hGc1, hGc2, hA1, hA2, hAe1, hAe2, hSe⟩

lemma strtoulFull_fst_lt (v : String) : (strtoulFull v).1 < 2 ^ 32 := by
  unfold strtoulFull
  dsimp only
  split_ifs
  · exact Nat.mod_lt _ (by norm_num)
  · have := Nat.min_le_right (parseDigitsAcc (strtolSplit v).2 0).1 (2 ^ 32 - 1)
    omega

lemma strtolFull_fst_bounds (v : String) :
    -(2 ^ 31) ≤ (strtolFull v).1 ∧ (strtolFull v).1 ≤ 2 ^ 31 - 1 := by
  unfold strtolFull
  dsimp only
  omega

lemma intervalBranch_valid {c : Configuration} {v : String} (h : Valid c) :
    Valid (intervalBranch c v).2 := by
  unfold intervalBranch
  rw [if_neg (strtoulFull_snd v)]
  split_ifs with hlt
  · exact @valid_upd_interval c 1000 h (le_refl 1000) (by norm_num)
  · have hlt' : ¬ (strtoulFull v).1 < 1000 := hlt
    exact @valid_upd_interval c ((strtoulFull v).1) h (by omega) (strtoulFull_fst_lt v)

lemma timezoneBranch_valid {c : Configuration} {v : String} (h : Valid c) :
    Valid (timezoneBranch c v).2 := by
  unfold timezoneBranch
  split_ifs with hl
  · exact h
  · exact @valid_upd_tzinfo c v h (by omega)

lemma rotationBranch_valid {c : Configuration} {v : String} (h : Valid c) :
    Valid (rotationBranch c v).2 := by
  unfold rotationBranch
  cases hp : parse_int v with
  | none => exact h
  | some n =>
    dsimp only
    split_ifs
    · exact @valid_upd_orientation c 1 h (by decide)
    · exact @valid_upd_orientation c 6 h (by decide)
    · exact @valid_upd_orientation c 3 h (by decide)
    · exact @valid_upd_orientation c 8 h (by decide)
    · exact h

lemma boolBranch_valid {c : Configuration} {v : String}
    (upd : Configuration → Bool → Configuration)
    (hupd : ∀ c b, Valid c → Valid (upd c b)) (h : Valid c) :
    Valid (boolBranch c v upd).2 := by
  unfold boolBranch
  cases hp : parse_bool v with
  | none => exact h
  | some b => exact hupd c b h

lemma intRangeBranch_valid {c : Configuration} {v : String} {lo hi : Int}
    (upd : Configuration → Int → Configuration)
    (hupd : ∀ c n, lo ≤ n → n ≤ hi → Valid c → Valid (upd c n)) (h : Valid c) :
    Valid (intRangeBranch c v lo hi upd).2 := by
  unfold intRangeBranch
  cases hp : parse_int v with
  | none => exact h
  | some n =>
    dsimp only
    split_ifs with hr
    · exact h
    · exact hupd c n (by omega) (by omega) h

lemma trainingShotsBranch_valid {c : Configuration} {v : String} (h : Valid c) :
    Valid (trainingShotsBranch c v).2 := by
  unfold trainingShotsBranch
  cases hp : parse_int v with
  | none => exact h
  | some n =>
    dsimp only
    split_ifs with hr
    · exact h
    · have h2 := parse_int_eq v
      rw [hp] at h2
      have hn : n = (strtolFull v).1 := Option.some_inj.mp h2
      have hb := strtolFull_fst_bounds v
      exact @valid_upd_training_shots c n h (by omega) (by omega)

lemma framesizeBranch_valid {c : Configuration} {v : String} (h : Valid c) :
    Valid (framesizeBranch c v).2 := by
  unfold framesizeBranch
  by_cases h1 : (ciEq v "QQVGA" || ciEq v "160x120") = true
  case pos => rw [if_pos h1]; exact @valid_upd_framesize c 1 h (by decide)
  case neg =>
    rw [if_neg h1]
    by_cases h2 : (ciEq v "QCIF" || ciEq v "176x144") = true
    case pos => rw [if_pos h2]; exact @valid_upd_framesize c 2 h (by decide)
    case neg =>
      rw [if_neg h2]
      by_cases h3 : (ciEq v "HQVGA" || ciEq v "240x176") = true
      case pos => rw [if_pos h3]; exact @valid_upd_framesize c 3 h (by decide)
      case neg =>
        rw [if_neg h3]
        by_cases h4 : (ciEq v "QVGA" || ciEq v "320x240") = true
        case pos => rw [if_pos h4]; exact @valid_upd_framesize c 5 h (by decide)
        case neg =>
          rw [if_neg h4]
          by_cases h5 : (ciEq v "CIF" || ciEq v "400x296") = true
          case pos => rw [if_pos h5]; exact @valid_upd_framesize c 6 h (by decide)
          case neg =>
            rw [if_neg h5]
            by_cases h6 : (ciEq v "VGA" || ciEq v "640x480") = true
            case pos => rw [if_pos h6]; exact @valid_upd_framesize c 8 h (by decide)
            case neg =>
              rw [if_neg h6]
              by_cases h7 : (ciEq v "SVGA" || ciEq v "800x600") = true
              case pos => rw [if_pos h7]; exact @valid_upd_framesize c 9 h (by decide)
              case neg =>
                rw [if_neg h7]
                by_cases h8 : (ciEq v "XGA" || ciEq v "1024x768") = true
                case pos => rw [if_pos h8]; exact @valid_upd_framesize c 10 h (by decide)
                case neg =>
                  rw [if_neg h8]
                  by_cases h9 : (ciEq v "SXGA" || ciEq v "1280x1024") = true
                  case pos => rw [if_pos h9]; exact @valid_upd_framesize c 12 h (by decide)
                  case neg =>
                    rw [if_neg h9]
                    by_cases h10 : (ciEq v "UXGA" || ciEq v "1600x1200") = true
                    case pos => rw [if_pos h10]; exact @valid_upd_framesize c 13 h (by decide)
                    case neg =>
                      rw [if_neg h10]
                      by_cases h11 : (ciEq v "QXGA" || ciEq v "2048x1536") = true
                      case pos => rw [if_pos h11]; exact @valid_upd_framesize c 17 h (by decide)
                      case neg =>
                        rw [if_neg h11]
                        exact h

lemma wbModeBranch_valid {c : Configuration} {v : String} (h : Valid c) :
    Valid (wbModeBranch c v).2 := by
  unfold wbModeBranch
  by_cases h1 : (ciEq v "auto") = true
  case pos => rw [if_pos h1]; exact @valid_upd_wb_mode c 0 h (by decide)
  case neg =>
    rw [if_neg h1]
    by_cases h2 : (ciEq v "sunny") = true
    case pos => rw [if_pos h2]; exact @valid_upd_wb_mode c 1 h (by decide)
    case neg =>
      rw [if_neg h2]
      by_cases h3 : (ciEq v "cloudy") = true
      case pos => rw [if_pos h3]; exact @valid_upd_wb_mode c 2 h (by decide)
      case neg =>
        rw [if_neg h3]
        by_cases h4 : (ciEq v "office") = true
        case pos => rw [if_pos h4]; exact @valid_upd_wb_mode c 3 h (by decide)
        case neg =>
          rw [if_neg h4]
          by_cases h5 : (ciEq v "home") = true
          case pos => rw [if_pos h5]; exact @valid_upd_wb_mode c 4 h (by decide)
          case neg =>
            rw [if_neg h5]
            exact h

lemma specialEffectBranch_valid {c : Configuration} {v : String} (h : Valid c) :
    Valid (specialEffectBranch c v).2 := by
  unfold specialEffectBranch
  by_cases h1 : (ciEq v "none") = true
  case pos => rw [if_pos h1]; exact @valid_upd_special_effect c 0 h (by decide)
  case neg =>
    rw [if_neg h1]
    by_cases h2 : (ciEq v "negative") = true
    case pos => rw [if_pos h2]; exact @valid_upd_special_effect c 1 h (by decide)
    case neg =>
      rw [if_neg h2]
      by_cases h3 : (ciEq v "grayscale") = true
      case pos => rw [if_pos h3]; exact @valid_upd_special_effect c 2 h (by decide)
      case neg =>
        rw [if_neg h3]
        by_cases h4 : (ciEq v "red tint") = true
        case pos => rw [if_pos h4]; exact @valid_upd_special_effect c 3 h (by decide)
        case neg =>
          rw [if_neg h4]
          by_cases h5 : (ciEq v "green tint") = true
          case pos => rw [if_pos h5]; exact @valid_upd_special_effect c 4 h (by decide)
          case neg =>
            rw [if_neg h5]
            by_cases h6 : (ciEq v "blue tint") = true
            case pos => rw [if_pos h6]; exact @valid_upd_special_effect c 5 h (by decide)
            case neg =>
              rw [if_neg h6]
              by_cases h7 : (ciEq v "sepia") = true
              case pos => rw [if_pos h7]; exact @valid_upd_special_effect c 6 h (by decide)
              case neg =>
                rw [if_neg h7]
                exact h

lemma intervalBranch_code (c : Configuration) (v : String) :
    (intervalBranch c v).1 = 0 := by
  unfold intervalBranch
  rw [if_neg (strtoulFull_snd v)]
  split_ifs <;> rfl

lemma timezoneBranch_err {c : Configuration} {v : String}
    (h : (timezoneBranch c v).1 ≠ 0) : (timezoneBranch c v).2 = c := by
  unfold timezoneBranch at *
  split_ifs at * <;> simp_all

lemma rotationBranch_err {c : Configuration} {v : String}
    (h : (rotationBranch c v).1 ≠ 0) : (rotationBranch c v).2 = c := by
  unfold rotationBranch at *
  cases hp : parse_int v with
  | none => rfl
  | some n =>
    rw [hp] at h
    dsimp only at *
    split_ifs at * <;> simp_all

lemma boolBranch_err {c : Configuration} {v : String}
    {upd : Configuration → Bool → Configuration}
    (h : (boolBranch c v upd).1 ≠ 0) : (boolBranch c v upd).2 = c := by
  unfold boolBranch at *
  cases hp : parse_bool v with
  | none => rfl
  | some b => rw [hp] at h; simp_all

lemma intRangeBranch_err {c : Configuration} {v : String} {lo hi : Int}
    {upd : Configuration → Int → Configuration}
    (h : (intRangeBranch c v lo hi upd).1 ≠ 0) :
    (intRangeBranch c v lo hi upd).2 = c := by
  unfold intRangeBranch at *
  cases hp : parse_int v with
  | none => rfl
  | some n =>
    rw [hp] at h
    dsimp only at *
    split_ifs at * <;> simp_all

lemma trainingShotsBranch_err {c : Configuration} {v : String}
    (h : (trainingShotsBranch c v).1 ≠ 0) : (trainingShotsBranch c v).2 = c := by
  unfold trainingShotsBranch at *
  cases hp : parse_int v with
  | none => rfl
  | some n =>
    rw [hp] at h
    dsimp only at *
    split_ifs at * <;> simp_all

lemma framesizeBranch_err {c : Configuration} {v : String}
    (h : (framesizeBranch c v).1 ≠ 0) : (framesizeBranch c v).2 = c := by
  unfold framesizeBranch at *
  by_cases h1 : (ciEq v "QQVGA" || ciEq v "160x120") = true
  case pos => rw [if_pos h1] at h; simp at h
  case neg =>
    rw [if_neg h1] at h ⊢
    by_cases h2 : (ciEq v "QCIF" || ciEq v "176x144") = true
    case pos => rw [if_pos h2] at h; simp at h
    case neg =>
      rw [if_neg h2] at h ⊢
      by_cases h3 : (ciEq v "HQVGA" || ciEq v "240x176") = true
      case pos => rw [if_pos h3] at h; simp at h
      case neg =>
        rw [if_neg h3] at h ⊢
        by_cases h4 : (ciEq v "QVGA" || ciEq v "320x240") = true
        case pos => rw [if_pos h4] at h; simp at h
        case neg =>
          rw [if_neg h4] at h ⊢
          by_cases h5 : (ciEq v "CIF" || ciEq v "400x296") = true
          case pos => rw [if_pos h5] at h; simp at h
          case neg =>
            rw [if_neg h5] at h ⊢
            by_cases h6 : (ciEq v "VGA" || ciEq v "640x480") = true
            case pos => rw [if_pos h6] at h; simp at h
            case neg =>
              rw [if_neg h6] at h ⊢
              by_cases h7 : (ciEq v "SVGA" || ciEq v "800x600") = true
              case pos => rw [if_pos h7] at h; simp at h
              case neg =>
                rw [if_neg h7] at h ⊢
                by_cases h8 : (ciEq v "XGA" || ciEq v "1024x768") = true
                case pos => rw [if_pos h8] at h; simp at h
                case neg =>
                  rw [if_neg h8] at h ⊢
                  by_cases h9 : (ciEq v "SXGA" || ciEq v "1280x1024") = true
                  case pos => rw [if_pos h9] at h; simp at h
                  case neg =>
                    rw [if_neg h9] at h ⊢
                    by_cases h10 : (ciEq v "UXGA" || ciEq v "1600x1200") = true
                    case pos => rw [if_pos h10] at h; simp at h
                    case neg =>
                      rw [if_neg h10] at h ⊢
                      by_cases h11 : (ciEq v "QXGA" || ciEq v "2048x1536") = true
                      case pos => rw [if_pos h11] at h; simp at h
                      case neg =>
                        rw [if_neg h11]

lemma wbModeBranch_err {c : Configuration} {v : String}
    (h : (wbModeBranch c v).1 ≠ 0) : (wbModeBranch c v).2 = c := by
  unfold wbModeBranch at *
  by_cases h1 : (ciEq v "auto") = true
  case pos => rw [if_pos h1] at h; simp at h
  case neg =>
    rw [if_neg h1] at h ⊢
    by_cases h2 : (ciEq v "sunny") = true
    case pos => rw [if_pos h2] at h; simp at h
    case neg =>
      rw [if_neg h2] at h ⊢
      by_cases h3 : (ciEq v "cloudy") = true
      case pos => rw [if_pos h3] at h; simp at h
      case neg =>
        rw [if_neg h3] at h ⊢
        by_cases h4 : (ciEq v "office") = true
        case pos => rw [if_pos h4] at h; simp at h
        case neg =>
          rw [if_neg h4] at h ⊢
          by_cases h5 : (ciEq v "home") = true
          case pos => rw [if_pos h5] at h; simp at h
          case neg =>
            rw [if_neg h5]

lemma specialEffectBranch_err {c : Configuration} {v : String}
    (h : (specialEffectBranch c v).1 ≠ 0) : (specialEffectBranch c v).2 = c := by
  unfold specialEffectBranch at *
  by_cases h1 : (ciEq v "none") = true
  case pos => rw [if_pos h1] at h; simp at h
  case neg =>
    rw [if_neg h1] at h ⊢
    by_cases h2 : (ciEq v "negative") = true
    case pos => rw [if_pos h2] at h; simp at h
    case neg =>
      rw [if_neg h2] at h ⊢
      by_cases h3 : (ciEq v "grayscale") = true
      case pos => rw [if_pos h3] at h; simp at h
      case neg =>
        rw [if_neg h3] at h ⊢
        by_cases h4 : (ciEq v "red tint") = true
        case pos => rw [if_pos h4] at h; simp at h
        case neg =>
          rw [if_neg h4] at h ⊢
          by_cases h5 : (ciEq v "green tint") = true
          case pos => rw [if_pos h5] at h; simp at h
          case neg =>
            rw [if_neg h5] at h ⊢
            by_cases h6 : (ciEq v "blue tint") = true
            case pos => rw [if_pos h6] at h; simp at h
            case neg =>
              rw [if_neg h6] at h ⊢
              by_cases h7 : (ciEq v "sepia") = true
              case pos => rw [if_pos h7] at h; simp at h
              case neg =>
                rw [if_neg h7]

lemma config_set_valid {c : Configuration} (key value : String) (h : Valid c) :
    Valid (c.config_set key value).2 := by
  unfold Configuration.config_set
  by_cases k1 : (ciEq key "interval") = true
  case pos => rw [if_pos k1]; exact intervalBranch_valid h
  case neg =>
    rw [if_neg k1]
    by_cases k2 : (ciEq key "ssid" || ciEq key "password" || ciEq key "ntp_server") = true
    case pos => rw [if_pos k2]; exact h
    case neg =>
      rw [if_neg k2]
      by_cases k3 : (ciEq key "timezone") = true
      case pos => rw [if_pos k3]; exact timezoneBranch_valid h
      case neg =>
        rw [if_neg k3]
        by_cases k4 : (ciEq key "rotation") = true
        case pos => rw [if_pos k4]; exact rotationBranch_valid h
        case neg =>
          rw [if_neg k4]
          by_cases k5 : (ciEq key "enable_busy_led") = true
          case pos => rw [if_pos k5]; exact boolBranch_valid _ (fun _ _ hv => hv) h
          case neg =>
            rw [if_neg k5]
            by_cases k6 : (ciEq key "enable_flash") = true
            case pos => rw [if_pos k6]; exact boolBranch_valid _ (fun _ _ hv => hv) h
            case neg =>
              rw [if_neg k6]
              by_cases k7 : (ciEq key "training_shots") = true
              case pos => rw [if_pos k7]; exact trainingShotsBranch_valid h
              case neg =>
                rw [if_neg k7]
                by_cases k8 : (ciEq key "framesize") = true
                case pos => rw [if_pos k8]; exact framesizeBranch_valid h
                case neg =>
                  rw [if_neg k8]
                  by_cases k9 : (ciEq key "quality") = true
                  case pos => rw [if_pos k9]; exact intRangeBranch_valid _ (fun _ n h1 h2 hv => valid_upd_quality hv h1 h2) h
                  case neg =>
                    rw [if_neg k9]
                    by_cases k10 : (ciEq key "contrast") = true
                    case pos => rw [if_pos k10]; exact intRangeBranch_valid _ (fun _ n h1 h2 hv => valid_upd_contrast hv h1 h2) h
                    case neg =>
                      rw [if_neg k10]
                      by_cases k11 : (ciEq key "brightness") = true
                      case pos => rw [if_pos k11]; exact intRangeBranch_valid _ (fun _ n h1 h2 hv => valid_upd_brightness hv h1 h2) h
                      case neg =>
                        rw [if_neg k11]
                        by_cases k12 : (ciEq key "saturation") = true
                        case pos => rw [if_pos k12]; exact intRangeBranch_valid _ (fun _ n h1 h2 hv => valid_upd_saturation hv h1 h2) h
                        case neg =>
                          rw [if_neg k12]
                          by_cases k13 : (ciEq key "colorbar") = true
                          case pos => rw [if_pos k13]; exact boolBranch_valid _ (fun _ _ hv => hv) h
                          case neg =>
                            rw [if_neg k13]
                            by_cases k14 : (ciEq key "hmirror") = true
                            case pos => rw [if_pos k14]; exact boolBranch_valid _ (fun _ _ hv => hv) h
                            case neg =>
                              rw [if_neg k14]
                              by_cases k15 : (ciEq key "vflip") = true
                              case pos => rw [if_pos k15]; exact boolBranch_valid _ (fun _ _ hv => hv) h
                              case neg =>
                                rw [if_neg k15]
                                by_cases k16 : (ciEq key "awb") = true
                                case pos => rw [if_pos k16]; exact boolBranch_valid _ (fun _ _ hv => hv) h
                                case neg =>
                                  rw [if_neg k16]
                                  by_cases k17 : (ciEq key "awb_gain") = true
                                  case pos => rw [if_pos k17]; exact boolBranch_valid _ (fun _ _ hv => hv) h
                                  case neg =>
                                    rw [if_neg k17]
                                    by_cases k18 : (ciEq key "wb_mode") = true
                                    case pos => rw [if_pos k18]; exact wbModeBranch_valid h
                                    case neg =>
                                      rw [if_neg k18]
                                      by_cases k19 : (ciEq key "agc") = true
                                      case pos => rw [if_pos k19]; exact boolBranch_valid _ (fun _ _ hv => hv) h
                                      case neg =>
                                        rw [if_neg k19]
                                        by_cases k20 : (ciEq key "agc_gain") = true
                                        case pos => rw [if_pos k20]; exact intRangeBranch_valid _ (fun _ n h1 h2 hv => valid_upd_agc_gain hv (by omega) (by omega)) h
                                        case neg =>
                                          rw [if_neg k20]
                                          by_cases k21 : (ciEq key "gainceiling") = true
                                          case pos => rw [if_pos k21]; exact intRangeBranch_valid _ (fun _ n h1 h2 hv => valid_upd_gainceiling hv h1 h2) h
                                          case neg =>
                                            rw [if_neg k21]
                                            by_cases k22 : (ciEq key "aec") = true
                                            case pos => rw [if_pos k22]; exact boolBranch_valid _ (fun _ _ hv => hv) h
                                            case neg =>
                                              rw [if_neg k22]
                                              by_cases k23 : (ciEq key "aec_value") = true
                                              case pos => rw [if_pos k23]; exact intRangeBranch_valid _ (fun _ n h1 h2 hv => valid_upd_aec_value hv h1 h2) h
                                              case neg =>
                                                rw [if_neg k23]
                                                by_cases k24 : (ciEq key "aec2") = true
                                                case pos => rw [if_pos k24]; exact boolBranch_valid _ (fun _ _ hv => hv) h
                                                case neg =>
                                                  rw [if_neg k24]
                                                  by_cases k25 : (ciEq key "ae_level") = true
                                                  case pos => rw [if_pos k25]; exact intRangeBranch_valid _ (fun _ n h1 h2 hv => valid_upd_ae_level hv h1 h2) h
                                                  case neg =>
                                                    rw [if_neg k25]
                                                    by_cases k26 : (ciEq key "dcw") = true
                                                    case pos => rw [if_pos k26]; exact boolBranch_valid _ (fun _ _ hv => hv) h
                                                    case neg =>
                                                      rw [if_neg k26]
                                                      by_cases k27 : (ciEq key "bpc") = true
                                                      case pos => rw [if_pos k27]; exact boolBranch_valid _ (fun _ _ hv => hv) h
                                                      case neg =>
                                                        rw [if_neg k27]
                                                        by_cases k28 : (ciEq key "wpc") = true
                                                        case pos => rw [if_pos k28]; exact boolBranch_valid _ (fun _ _ hv => hv) h
                                                        case neg =>
                                                          rw [if_neg k28]
                                                          by_cases k29 : (ciEq key "raw_gma") = true
                                                          case pos => rw [if_pos k29]; exact boolBranch_valid _ (fun _ _ hv => hv) h
                                                          case neg =>
                                                            rw [if_neg k29]
                                                            by_cases k30 : (ciEq key "lenc") = true
                                                            case pos => rw [if_pos k30]; exact boolBranch_valid _ (fun _ _ hv => hv) h
                                                            case neg =>
                                                              rw [if_neg k30]
                                                              by_cases k31 : (ciEq key "special_effect") = true
                                                              case pos => rw [if_pos k31]; exact specialEffectBranch_valid h
                                                              case neg =>
                                                                rw [if_neg k31]
                                                                exact h

lemma config_set_err {c : Configuration} {key value : String}
    (h : (c.config_set key value).1 ≠ 0) : (c.config_set key value).2 = c := by
  unfold Configuration.config_set at h ⊢
  by_cases k1 : (ciEq key "interval") = true
  case pos => rw [if_pos k1] at h ⊢; exact absurd (intervalBranch_code c value) h
  case neg =>
    rw [if_neg k1] at h ⊢
    by_cases k2 : (ciEq key "ssid" || ciEq key "password" || ciEq key "ntp_server") = true
    case pos => rw [if_pos k2] at h ⊢
    case neg =>
      rw [if_neg k2] at h ⊢
      by_cases k3 : (ciEq key "timezone") = true
      case pos => rw [if_pos k3] at h ⊢; exact timezoneBranch_err h
      case neg =>
        rw [if_neg k3] at h ⊢
        by_cases k4 : (ciEq key "rotation") = true
        case pos => rw [if_pos k4] at h ⊢; exact rotationBranch_err h
        case neg =>
          rw [if_neg k4] at h ⊢
          by_cases k5 : (ciEq key "enable_busy_led") = true
          case pos => rw [if_pos k5] at h ⊢; exact boolBranch_err h
          case neg =>
            rw [if_neg k5] at h ⊢
            by_cases k6 : (ciEq key "enable_flash") = true
            case pos => rw [if_pos k6] at h ⊢; exact boolBranch_err h
            case neg =>
              rw [if_neg k6] at h ⊢
              by_cases k7 : (ciEq key "training_shots") = true
              case pos => rw [if_pos k7] at h ⊢; exact trainingShotsBranch_err h
              case neg =>
                rw [if_neg k7] at h ⊢
                by_cases k8 : (ciEq key "framesize") = true
                case pos => rw [if_pos k8] at h ⊢; exact framesizeBranch_err h
                case neg =>
                  rw [if_neg k8] at h ⊢
                  by_cases k9 : (ciEq key "quality") = true
                  case pos => rw [if_pos k9] at h ⊢; exact intRangeBranch_err h
                  case neg =>
                    rw [if_neg k9] at h ⊢
                    by_cases k10 : (ciEq key "contrast") = true
                    case pos => rw [if_pos k10] at h ⊢; exact intRangeBranch_err h
                    case neg =>
                      rw [if_neg k10] at h ⊢
                      by_cases k11 : (ciEq key "brightness") = true
                      case pos => rw [if_pos k11] at h ⊢; exact intRangeBranch_err h
                      case neg =>
                        rw [if_neg k11] at h ⊢
                        by_cases k12 : (ciEq key "saturation") = true
                        case pos => rw [if_pos k12] at h ⊢; exact intRangeBranch_err h
                        case neg =>
                          rw [if_neg k12] at h ⊢
                          by_cases k13 : (ciEq key "colorbar") = true
                          case pos => rw [if_pos k13] at h ⊢; exact boolBranch_err h
                          case neg =>
                            rw [if_neg k13] at h ⊢
                            by_cases k14 : (ciEq key "hmirror") = true
                            case pos => rw [if_pos k14] at h ⊢; exact boolBranch_err h
                            case neg =>
                              rw [if_neg k14] at h ⊢
                              by_cases k15 : (ciEq key "vflip") = true
                              case pos => rw [if_pos k15] at h ⊢; exact boolBranch_err h
                              case neg =>
                                rw [if_neg k15] at h ⊢
                                by_cases k16 : (ciEq key "awb") = true
                                case pos => rw [if_pos k16] at h ⊢; exact boolBranch_err h
                                case neg =>
                                  rw [if_neg k16] at h ⊢
                                  by_cases k17 : (ciEq key "awb_gain") = true
                                  case pos => rw [if_pos k17] at h ⊢; exact boolBranch_err h
                                  case neg =>
                                    rw [if_neg k17] at h ⊢
                                    by_cases k18 : (ciEq key "wb_mode") = true
                                    case pos => rw [if_pos k18] at h ⊢; exact wbModeBranch_err h
                                    case neg =>
                                      rw [if_neg k18] at h ⊢
                                      by_cases k19 : (ciEq key "agc") = true
                                      case pos => rw [if_pos k19] at h ⊢; exact boolBranch_err h
                                      case neg =>
                                        rw [if_neg k19] at h ⊢
                                        by_cases k20 : (ciEq key "agc_gain") = true
                                        case pos => rw [if_pos k20] at h ⊢; exact intRangeBranch_err h
                                        case neg =>
                                          rw [if_neg k20] at h ⊢
                                          by_cases k21 : (ciEq key "gainceiling") = true
                                          case pos => rw [if_pos k21] at h ⊢; exact intRangeBranch_err h
                                          case neg =>
                                            rw [if_neg k21] at h ⊢
                                            by_cases k22 : (ciEq key "aec") = true
                                            case pos => rw [if_pos k22] at h ⊢; exact boolBranch_err h
                                            case neg =>
                                              rw [if_neg k22] at h ⊢
                                              by_cases k23 : (ciEq key "aec_value") = true
                                              case pos => rw [if_pos k23] at h ⊢; exact intRangeBranch_err h
                                              case neg =>
                                                rw [if_neg k23] at h ⊢
                                                by_cases k24 : (ciEq key "aec2") = true
                                                case pos => rw [if_pos k24] at h ⊢; exact boolBranch_err h
                                                case neg =>
                                                  rw [if_neg k24] at h ⊢
                                                  by_cases k25 : (ciEq key "ae_level") = true
                                                  case pos => rw [if_pos k25] at h ⊢; exact intRangeBranch_err h
                                                  case neg =>
                                                    rw [if_neg k25] at h ⊢
                                                    by_cases k26 : (ciEq key "dcw") = true
                                                    case pos => rw [if_pos k26] at h ⊢; exact boolBranch_err h
                                                    case neg =>
                                                      rw [if_neg k26] at h ⊢
                                                      by_cases k27 : (ciEq key "bpc") = true
                                                      case pos => rw [if_pos k27] at h ⊢; exact boolBranch_err h
                                                      case neg =>
                                                        rw [if_neg k27] at h ⊢
                                                        by_cases k28 : (ciEq key "wpc") = true
                                                        case pos => rw [if_pos k28] at h ⊢; exact boolBranch_err h
                                                        case neg =>
                                                          rw [if_neg k28] at h ⊢
                                                          by_cases k29 : (ciEq key "raw_gma") = true
                                                          case pos => rw [if_pos k29] at h ⊢; exact boolBranch_err h
                                                          case neg =>
                                                            rw [if_neg k29] at h ⊢
                                                            by_cases k30 : (ciEq key "lenc") = true
                                                            case pos => rw [if_pos k30] at h ⊢; exact boolBranch_err h
                                                            case neg =>
                                                              rw [if_neg k30] at h ⊢
                                                              by_cases k31 : (ciEq key "special_effect") = true
                                                              case pos => rw [if_pos k31] at h ⊢; exact specialEffectBranch_err h
                                                              case neg =>
                                                                rw [if_neg k31] at h ⊢

lemma applySet_valid : ∀ (kvs : List (String × String)) (c : Configuration),
    Valid c → Valid (applySet c kvs) := by
  intro kvs
  induction kvs with
  | nil => intro c h; exact h
  | cons kv rest ih =>
    intro c h
    rw [show applySet c (kv :: rest) = applySet ((c.config_set kv.1 kv.2).2) rest from rfl]
    exact ih _ (config_set_valid kv.1 kv.2 h)

/-- Claim C1: Store validity invariant with atomic rejection — every
`config_set` call that returns a nonzero error code leaves every field of
the store unchanged, and any sequence of `config_set` calls starting from a
domain-valid store keeps every field inside its documented domain. -/
theorem claim_C1_store_invariant :
    (∀ (c : Configuration) (key value : String),
        (c.config_set key value).1 ≠ 0 → (c.config_set key value).2 = c) ∧
    (∀ (kvs : List (String × String)) (c : Configuration),
        Valid c → Valid (applySet c kvs)) :=
  ⟨fun _ _ _ h => config_set_err h, fun kvs c h => applySet_valid kvs c h⟩

theorem claim_C1_witness :
    (cfgW.config_set "quality" "9").2 = cfgW ∧
    Valid (applySet cfgW [("quality", "63"), ("rotation", "180")]) :=
  ⟨claim_C1_store_invariant.1 cfgW "quality" "9" (by decide),
   claim_C1_store_invariant.2 [("quality", "63"), ("rotation", "180")] cfgW (by decide)⟩

/-- Claim C2 (refuted by the code): `parse_int` never fails, because the
`endp == NULL` test is dead (`strtol` always stores a non-null pointer), so
a wholly non-numeric value such as `"abc"` parses as `0` and `config_set`
on an integer key accepts it — storing `0` and returning success instead
of the claimed invalid-format error.  Trailing garbage after a valid
leading integer is accepted, as the claim says. -/
theorem claim_C2_format_bug :
    ∀ c : Configuration,
      parse_int "abc" = some 0 ∧
      c.config_set "contrast" "abc" = (0, { c with m_contrast := 0 }) ∧
      c.config_set "contrast" "1abc" = (0, { c with m_contrast := 1 }) :=
  fun _ => ⟨rfl, rfl, rfl⟩

theorem claim_C3_witness :
    Valid cfgW ∧ loadPairs cfgW0 cfgW.saveLines = (0, cfgW) :=
  ⟨by decide, claim_C3_save_load_roundtrip cfgW cfgW0 (by decide)⟩

/-- Claim C4: Orientation degrees/code round-trip — rotation inputs
0, 90, 180, 270 store EXIF codes 1, 6, 3, 8 and render back to the same
degrees; -90, -180, -270 store 8, 3, 6 (rendering to the positive canonical
degree);
every other parsed integer is rejected with the orientation unchanged. -/
theorem claim_C4_orientation_roundtrip :
    ∀ c : Configuration,
      (c.config_set "rotation" "0" = (0, { c with m_orientation := 1 }) ∧
        orientation_to_rotation 1 = 0) ∧
      (c.config_set "rotation" "90" = (0, { c with m_orientation := 6 }) ∧
        orientation_to_rotation 6 = 90) ∧
      (c.config_set "rotation" "180" = (0, { c with m_orientation := 3 }) ∧
        orientation_to_rotation 3 = 180) ∧
      (c.config_set "rotation" "270" = (0, { c with m_orientation := 8 }) ∧
        orientation_to_rotation 8 = 270) ∧
      c.config_set "rotation" "-90" = (0, { c with m_orientation := 8 }) ∧
      c.config_set "rotation" "-180" = (0, { c with m_orientation := 3 }) ∧
      c.config_set "rotation" "-270" = (0, { c with m_orientation := 6 }) ∧
      (∀ v : String,
        (strtolFull v).1 ∉ ([0, 90, -270, 180, -180, 270, -90] : List Int) →
        c.config_set "rotation" v = (-2, c)) := by
  intro c
  refine ⟨⟨rfl, rfl⟩, ⟨rfl, rfl⟩, ⟨rfl, rfl⟩, ⟨rfl, rfl⟩, rfl, rfl, rfl, ?_⟩
  intro v hv
  simp only [List.mem_cons, List.not_mem_nil, or_false, not_or] at hv
  obtain ⟨e0, e90, em270, e180, em180, e270, em90⟩ := hv
  show rotationBranch c v = _
  unfold rotationBranch
  rw [parse_int_eq]
  dsimp only
  rw [if_neg e0, if_neg (not_or.mpr ⟨e90, em270⟩), if_neg (not_or.mpr ⟨e180, em180⟩),
    if_neg (not_or.mpr ⟨e270, em90⟩)]

theorem claim_C4_witness : cfgW.config_set "rotation" "45" = (-2, cfgW) :=
  (claim_C4_orientation_roundtrip cfgW).2.2.2.2.2.2.2 "45" (by decide)

/-- Claim C5: Interval clamp instead of reject — `config_set` on
`interval` always succeeds; the stored interval is the `strtoul` result,
clamped up to 1000 when below 1000.  Every other numeric field rejects an
out-of-domain parsed value (one concrete rejection per field). -/
theorem claim_C5_interval_clamp :
    ∀ (c : Configuration) (v : String),
      (c.config_set "interval" v).1 = 0 ∧
      (c.config_set "interval" v).2 =
        { c with m_capture_interval :=
            if (strtoulFull v).1 < 1000 then 1000 else (strtoulFull v).1 } ∧
      (c.config_set "quality" "9" = (-2, c) ∧
       c.config_set "contrast" "-3" = (-2, c) ∧
       c.config_set "brightness" "3" = (-2, c) ∧
       c.config_set "saturation" "3" = (-2, c) ∧
       c.config_set "ae_level" "3" = (-2, c) ∧
       c.config_set "agc_gain" "0" = (-2, c) ∧
       c.config_set "gainceiling" "7" = (-2, c) ∧
       c.config_set "aec_value" "1201" = (-2, c) ∧
       c.config_set "training_shots" "-1" = (-2, c)) := by
  intro c v
  refine ⟨intervalBranch_code c v, ?_, rfl, rfl, rfl, rfl, rfl, rfl, rfl, rfl, rfl⟩
  show (intervalBranch c v).2 = _
  unfold intervalBranch
  rw [if_neg (strtoulFull_snd v)]
  by_cases hc : (strtoulFull v).1 < 1000
  · rw [if_pos hc, if_pos hc]
  · rw [if_neg hc, if_neg hc]

/-- Claim C7: Range boundary acceptance — for each two-sided ranged integer
field, the value one below the minimum and one above the maximum are
rejected while the minimum and maximum themselves are accepted; `agc_gain`
is one-based externally and stored zero-based (1 stores 0, 32 stores 31). -/
theorem claim_C7_range_boundaries :
    ∀ c : Configuration,
      (c.config_set "quality" "9" = (-2, c) ∧
       c.config_set "quality" "10" = (0, { c with m_quality := 10 }) ∧
       c.config_set "quality" "63" = (0, { c with m_quality := 63 }) ∧
       c.config_set "quality" "64" = (-2, c)) ∧
      (c.config_set "contrast" "-3" = (-2, c) ∧
       c.config_set "contrast" "-2" = (0, { c with m_contrast := -2 }) ∧
       c.config_set "contrast" "2" = (0, { c with m_contrast := 2 }) ∧
       c.config_set "contrast" "3" = (-2, c)) ∧
      (c.config_set "brightness" "-3" = (-2, c) ∧
       c.config_set "brightness" "-2" = (0, { c with m_brightness := -2 }) ∧
       c.config_set "brightness" "2" = (0, { c with m_brightness := 2 }) ∧
       c.config_set "brightness" "3" = (-2, c)) ∧
      (c.config_set "saturation" "-3" = (-2, c) ∧
       c.config_set "saturation" "-2" = (0, { c with m_saturation := -2 }) ∧
       c.config_set "saturation" "2" = (0, { c with m_saturation := 2 }) ∧
       c.config_set "saturation" "3" = (-2, c)) ∧
      (c.config_set "ae_level" "-3" = (-2, c) ∧
       c.config_set "ae_level" "-2" = (0, { c with m_ae_level := -2 }) ∧
       c.config_set "ae_level" "2" = (0, { c with m_ae_level := 2 }) ∧
       c.config_set "ae_level" "3" = (-2, c)) ∧
      (c.config_set "agc_gain" "0" = (-2, c) ∧
       c.config_set "agc_gain" "1" = (0, { c with m_agc_gain := 0 }) ∧
       c.config_set "agc_gain" "32" = (0, { c with m_agc_gain := 31 }) ∧
       c.config_set "agc_gain" "33" = (-2, c)) ∧
      (c.config_set "gainceiling" "-1" = (-2, c) ∧
       c.config_set "gainceiling" "0" = (0, { c with m_gainceiling := 0 }) ∧
       c.config_set "gainceiling" "6" = (0, { c with m_gainceiling := 6 }) ∧
       c.config_set "gainceiling" "7" = (-2, c)) ∧
      (c.config_set "aec_value" "-1" = (-2, c) ∧
       c.config_set "aec_value" "0" = (0, { c with m_aec_value := 0 }) ∧
       c.config_set "aec_value" "1200" = (0, { c with m_aec_value := 1200 }) ∧
       c.config_set "aec_value" "1201" = (-2, c)) :=
  fun _ => ⟨⟨rfl, rfl, rfl, rfl⟩, ⟨rfl, rfl, rfl, rfl⟩, ⟨rfl, rfl, rfl, rfl⟩,
    ⟨rfl, rfl, rfl, rfl⟩, ⟨rfl, rfl, rfl, rfl⟩, ⟨rfl, rfl, rfl, rfl⟩,
    ⟨rfl, rfl, rfl, rfl⟩, ⟨rfl, rfl, rfl, rfl⟩⟩

lemma ciEq_congr {a a' : String} (h : lowerStr a = lowerStr a') (b : String) :
    ciEq a b = ciEq a' b := by
  unfold ciEq
  rw [h]

/-- Claim C6: Unknown and deprecated keys are tolerated without mutation —
a key matching no known spelling returns success and changes nothing, and
the deprecated keys `ssid`, `password`, `ntp_server` (case-insensitively)
return success and store nothing, for every value string. -/
theorem claim_C6_unknown_and_deprecated :
    (∀ (c : Configuration) (key value : String),
        (∀ s ∈ knownKeySpellings, ciEq key s = false) →
        c.config_set key value = (0, c)) ∧
    (∀ (c : Configuration) (key value : String),
        (lowerStr key = lowerStr "ssid" ∨ lowerStr key = lowerStr "password" ∨
          lowerStr key = lowerStr "ntp_server") →
        c.config_set key value = (0, c)) := by
  constructor
  · intro c key value hk
    unfold Configuration.config_set
    simp only [hk "interval" (by decide), hk "ssid" (by decide),
      hk "password" (by decide), hk "ntp_server" (by decide),
      hk "timezone" (by decide), hk "rotation" (by decide),
      hk "enable_busy_led" (by decide), hk "enable_flash" (by decide),
      hk "training_shots" (by decide), hk "framesize" (by decide),
      hk "quality" (by decide), hk "contrast" (by decide),
      hk "brightness" (by decide), hk "saturation" (by decide),
      hk "colorbar" (by decide), hk "hmirror" (by decide),
      hk "vflip" (by decide), hk "awb" (by decide), hk "awb_gain" (by decide),
      hk "wb_mode" (by decide), hk "agc" (by decide), hk "agc_gain" (by decide),
      hk "gainceiling" (by decide), hk "aec" (by decide),
      hk "aec_value" (by decide), hk "aec2" (by decide),
      hk "ae_level" (by decide), hk "dcw" (by decide), hk "bpc" (by decide),
      hk "wpc" (by decide), hk "raw_gma" (by decide), hk "lenc" (by decide),
      hk "special_effect" (by decide), Bool.or_self, Bool.false_eq_true,
      if_false]
  · intro c key value hd
    rcases hd with h | h | h
    · unfold Configuration.config_set
      simp only [ciEq_congr h]
      rfl
    · unfold Configuration.config_set
      simp only [ciEq_congr h]
      rfl
    · unfold Configuration.config_set
      simp only [ciEq_congr h]
      rfl

theorem claim_C6_witness :
    cfgW.config_set "foo" "bar" = (0, cfgW) ∧
    cfgW.config_set "SSID" "mynetwork" = (0, cfgW) :=
  ⟨claim_C6_unknown_and_deprecated.1 cfgW "foo" "bar" (by decide),
   claim_C6_unknown_and_deprecated.2 cfgW "SSID" "mynetwork" (Or.inl (by decide))⟩

/-- Claim C8: Frame-size alias equivalence and canonical render —
`"640x480"`, `"VGA"` and `"vga"` (case-insensitive exact match) store the
identical preset code 8; the JSON pair list of a store holding that preset
contains `framesize` rendered as the quoted string `640x480`; a value
matching none of the 22 accepted spellings is rejected with the frame-size
field unchanged. -/
theorem claim_C8_framesize_alias :
    ∀ c : Configuration,
      c.config_set "framesize" "640x480" = (0, { c with m_frame_size := 8 }) ∧
      c.config_set "framesize" "VGA" = (0, { c with m_frame_size := 8 }) ∧
      c.config_set "framesize" "vga" = (0, { c with m_frame_size := 8 }) ∧
      (∀ c' : Configuration, c'.m_frame_size = 8 →
        ("framesize", "\"640x480\"") ∈ c'.configAsJSONPairs) ∧
      (∀ v : String, (∀ s ∈ framesizeSpellings, ciEq v s = false) →
        c.config_set "framesize" v = (-2, c)) := by
  intro c
  refine ⟨rfl, rfl, rfl, ?_, ?_⟩
  · intro c' h8
    unfold Configuration.configAsJSONPairs
    rw [h8]
    rw [show jstr (frame_size_strings.getD 8 "") = "\"640x480\"" from rfl]
    simp
  · intro v hv
    show framesizeBranch c v = _
    unfold framesizeBranch
    simp only [hv "QQVGA" (by decide), hv "160x120" (by decide),
      hv "QCIF" (by decide), hv "176x144" (by decide),
      hv "HQVGA" (by decide), hv "240x176" (by decide),
      hv "QVGA" (by decide), hv "320x240" (by decide),
      hv "CIF" (by decide), hv "400x296" (by decide),
      hv "VGA" (by decide), hv "640x480" (by decide),
      hv "SVGA" (by decide), hv "800x600" (by decide),
      hv "XGA" (by decide), hv "1024x768" (by decide),
      hv "SXGA" (by decide), hv "1280x1024" (by decide),
      hv "UXGA" (by decide), hv "1600x1200" (by decide),
      hv "QXGA" (by decide), hv "2048x1536" (by decide),
      Bool.or_self, Bool.false_eq_true, if_false]

theorem claim_C8_witness :
    cfgW.config_set "framesize" "1080p" = (-2, cfgW) ∧
    ("framesize", "\"640x480\"") ∈ cfgW.configAsJSONPairs :=
  ⟨(claim_C8_framesize_alias cfgW).2.2.2.2 "1080p" (by decide),
   (claim_C8_framesize_alias cfgW).2.2.2.1 cfgW (by decide)⟩

lemma sapp_assoc (a b c : String) : a ++ b ++ c = a ++ (b ++ c) := by
  cases a; cases b; cases c
  exact congrArg String.mk (List.append_assoc _ _ _)

lemma sapp_nil (a : String) : a ++ "" = a := by
  cases a
  exact congrArg String.mk (List.append_nil _)

lemma btos_01 (b : Bool) : btos b = "0" ∨ btos b = "1" := by
  cases b
  · left; rfl
  · right; rfl

lemma configAsJSON_eq_pairs (c : Configuration) :
    c.configAsJSON = mkJSONObj c.configAsJSONPairs := by
  dsimp only [Configuration.configAsJSON, mkJSONObj,
    Configuration.configAsJSONPairs, joinPairs, joinRest, renderPairFirst,
    renderPairRest]
  rw [show (("\"" : String) ++ "interval" ++ "\": ") = "\"interval\": " from rfl]
  rw [show ((",\"" : String) ++ "enable_busy_led" ++ "\": ") = ",\"enable_busy_led\": " from rfl]
  rw [show ((",\"" : String) ++ "enable_flash" ++ "\": ") = ",\"enable_flash\": " from rfl]
  rw [show ((",\"" : String) ++ "training_shots" ++ "\": ") = ",\"training_shots\": " from rfl]
  rw [show ((",\"" : String) ++ "timezone" ++ "\": ") = ",\"timezone\": " from rfl]
  rw [show ((",\"" : String) ++ "rotation" ++ "\": ") = ",\"rotation\": " from rfl]
  rw [show ((",\"" : String) ++ "framesize" ++ "\": ") = ",\"framesize\": " from rfl]
  rw [show ((",\"" : String) ++ "quality" ++ "\": ") = ",\"quality\": " from rfl]
  rw [show ((",\"" : String) ++ "contrast" ++ "\": ") = ",\"contrast\": " from rfl]
  rw [show ((",\"" : String) ++ "brightness" ++ "\": ") = ",\"brightness\": " from rfl]
  rw [show ((",\"" : String) ++ "saturation" ++ "\": ") = ",\"saturation\": " from rfl]
  rw [show ((",\"" : String) ++ "colorbar" ++ "\": ") = ",\"colorbar\": " from rfl]
  rw [show ((",\"" : String) ++ "hmirror" ++ "\": ") = ",\"hmirror\": " from rfl]
  rw [show ((",\"" : String) ++ "vflip" ++ "\": ") = ",\"vflip\": " from rfl]
  rw [show ((",\"" : String) ++ "awb" ++ "\": ") = ",\"awb\": " from rfl]
  rw [show ((",\"" : String) ++ "awb_gain" ++ "\": ") = ",\"awb_gain\": " from rfl]
  rw [show ((",\"" : String) ++ "wb_mode" ++ "\": ") = ",\"wb_mode\": " from rfl]
  rw [show ((",\"" : String) ++ "agc" ++ "\": ") = ",\"agc\": " from rfl]
  rw [show ((",\"" : String) ++ "agc_gain" ++ "\": ") = ",\"agc_gain\": " from rfl]
  rw [show ((",\"" : String) ++ "gainceiling" ++ "\": ") = ",\"gainceiling\": " from rfl]
  rw [show ((",\"" : String) ++ "aec" ++ "\": ") = ",\"aec\": " from rfl]
  rw [show ((",\"" : String) ++ "aec_value" ++ "\": ") = ",\"aec_value\": " from rfl]
  rw [show ((",\"" : String) ++ "aec2" ++ "\": ") = ",\"aec2\": " from rfl]
  rw [show ((",\"" : String) ++ "ae_level" ++ "\": ") = ",\"ae_level\": " from rfl]
  rw [show ((",\"" : String) ++ "dcw" ++ "\": ") = ",\"dcw\": " from rfl]
  rw [show ((",\"" : String) ++ "bpc" ++ "\": ") = ",\"bpc\": " from rfl]
  rw [show ((",\"" : String) ++ "wpc" ++ "\": ") = ",\"wpc\": " from rfl]
  rw [show ((",\"" : String) ++ "raw_gma" ++ "\": ") = ",\"raw_gma\": " from rfl]
  rw [show ((",\"" : String) ++ "lenc" ++ "\": ") = ",\"lenc\": " from rfl]
  rw [show ((",\"" : String) ++ "special_effect" ++ "\": ") = ",\"special_effect\": " from rfl]
  simp only [sapp_assoc, sapp_nil]

/-- Claim C9: JSON render totality and shape — for every domain-valid
store, each enum-indexed string-table lookup of `configAsJSON` is within
bounds, the JSON text is exactly the flat object over the pair list, the
pair list carries the 30 documented keys exactly once in the fixed order
(the key list is duplicate-free), every boolean field renders as `0` or
`1`, and every enum spelling in the string tables is already lowercase
(`configAsJSON` itself is a total Lean function). -/
theorem claim_C9_json_shape (c : Configuration) (h : Valid c) :
    (c.m_frame_size < frame_size_strings.length ∧
     c.m_wb_mode < wb_mode_strings.length ∧
     c.m_special_effect < special_effect_strings.length) ∧
    c.configAsJSON = mkJSONObj c.configAsJSONPairs ∧
    c.configAsJSONPairs.map Prod.fst = jsonKeys ∧
    jsonKeys.Nodup ∧
    (∀ k v, (k, v) ∈ c.configAsJSONPairs → k ∈ boolJsonKeys →
      v = "0" ∨ v = "1") ∧
    (∀ s ∈ frame_size_strings ++ wb_mode_strings ++ special_effect_strings,
      lowerStr s = s.data) := by
  obtain ⟨hI1, hI2, hTz, hO, hTs1, hTs2, hFs, hQ1, hQ2, hCt1, hCt2, hBr1, hBr2,
    hSa1, hSa2, hWb, hG1, hG2, hGc1, hGc2, hA1, hA2, hAe1, hAe2, hSe⟩ := h
  refine ⟨⟨?_, hWb, hSe⟩, configAsJSON_eq_pairs c, rfl, by decide, ?_, by decide⟩
  · have hlt : ∀ x ∈ frameCodes, x < frame_size_strings.length := by decide
    exact hlt _ hFs
  · intro k v hp hb
    unfold Configuration.configAsJSONPairs at hp
    simp only [List.mem_cons, List.not_mem_nil, or_false, Prod.mk.injEq] at hp
    rcases hp with hkv1 | hp
    · obtain ⟨rfl, rfl⟩ := hkv1
      exact absurd hb (by decide)
    rcases hp with hkv2 | hp
    · obtain ⟨rfl, rfl⟩ := hkv2
      exact btos_01 _
    rcases hp with hkv3 | hp
    · obtain ⟨rfl, rfl⟩ := hkv3
      exact btos_01 _
    rcases hp with hkv4 | hp
    · obtain ⟨rfl, rfl⟩ := hkv4
      exact absurd hb (by decide)
    rcases hp with hkv5 | hp
    · obtain ⟨rfl, rfl⟩ := hkv5
      exact absurd hb (by decide)
    rcases hp with hkv6 | hp
    · obtain ⟨rfl, rfl⟩ := hkv6
      exact absurd hb (by decide)
    rcases hp with hkv7 | hp
    · obtain ⟨rfl, rfl⟩ := hkv7
      exact absurd hb (by decide)
    rcases hp with hkv8 | hp
    · obtain ⟨rfl, rfl⟩ := hkv8
      exact absurd hb (by decide)
    rcases hp with hkv9 | hp
    · obtain ⟨rfl, rfl⟩ := hkv9
      exact absurd hb (by decide)
    rcases hp with hkv10 | hp
    · obtain ⟨rfl, rfl⟩ := hkv10
      exact absurd hb (by decide)
    rcases hp with hkv11 | hp
    · obtain ⟨rfl, rfl⟩ := hkv11
      exact absurd hb (by decide)
    rcases hp with hkv12 | hp
    · obtain ⟨rfl, rfl⟩ := hkv12
      exact btos_01 _
    rcases hp with hkv13 | hp
    · obtain ⟨rfl, rfl⟩ := hkv13
      exact btos_01 _
    rcases hp with hkv14 | hp
    · obtain ⟨rfl, rfl⟩ := hkv14
      exact btos_01 _
    rcases hp with hkv15 | hp
    · obtain ⟨rfl, rfl⟩ := hkv15
      exact btos_01 _
    rcases hp with hkv16 | hp
    · obtain ⟨rfl, rfl⟩ := hkv16
      exact btos_01 _
    rcases hp with hkv17 | hp
    · obtain ⟨rfl, rfl⟩ := hkv17
      exact absurd hb (by decide)
    rcases hp with hkv18 | hp
    · obtain ⟨rfl, rfl⟩ := hkv18
      exact btos_01 _
    rcases hp with hkv19 | hp
    · obtain ⟨rfl, rfl⟩ := hkv19
      exact absurd hb (by decide)
    rcases hp with hkv20 | hp
    · obtain ⟨rfl, rfl⟩ := hkv20
      exact absurd hb (by decide)
    rcases hp with hkv21 | hp
    · obtain ⟨rfl, rfl⟩ := hkv21
      exact btos_01 _
    rcases hp with hkv22 | hp
    · obtain ⟨rfl, rfl⟩ := hkv22
      exact absurd hb (by decide)
    rcases hp with hkv23 | hp
    · obtain ⟨rfl, rfl⟩ := hkv23
      exact btos_01 _
    rcases hp with hkv24 | hp
    · obtain ⟨rfl, rfl⟩ := hkv24
      exact absurd hb (by decide)
    rcases hp with hkv25 | hp
    · obtain ⟨rfl, rfl⟩ := hkv25
      exact btos_01 _
    rcases hp with hkv26 | hp
    · obtain ⟨rfl, rfl⟩ := hkv26
      exact btos_01 _
    rcases hp with hkv27 | hp
    · obtain ⟨rfl, rfl⟩ := hkv27
      exact btos_01 _
    rcases hp with hkv28 | hp
    · obtain ⟨rfl, rfl⟩ := hkv28
      exact btos_01 _
    rcases hp with hkv29 | hp
    · obtain ⟨rfl, rfl⟩ := hkv29
      exact btos_01 _
    obtain ⟨rfl, rfl⟩ := hp
    exact absurd hb (by decide)

theorem claim_C9_witness :
    Valid cfgW ∧ cfgW.configAsJSONPairs.map Prod.fst = jsonKeys :=
  ⟨by decide, (claim_C9_json_shape cfgW (by decide)).2.2.1⟩

/-- Claim C10: Load outcome taxonomy — a missing config file is not an
error: `loadConfig` returns `true` with every field at its prior value;
with a file present it returns `false` exactly when the key/value parse
reports a nonzero error.  The outcome is carried solely by the boolean
return value (`loadConfig` is a total function with no exception path). -/
theorem claim_C10_load_outcomes :
    (∀ c : Configuration, c.loadConfig none = (true, c)) ∧
    (∀ (c : Configuration) (pairs : List (String × String)),
      (c.loadConfig (some pairs)).1 = false ↔ (loadPairs c pairs).1 ≠ 0) := by
  constructor
  · intro c
    rfl
  · intro c pairs
    unfold Configuration.loadConfig
    dsimp only
    split_ifs with hp
    · simp [hp]
    · simp [hp]
